import Mathlib

/-
  Verification development for the grblHAL reporting layer (report.c) and the
  odometer plugin (odometer.c).

  The C source is shallowly embedded:
  * machine integers are Nat / Int with explicit reductions modulo 2^32 where
    C unsigned wrap-around matters;
  * the stream writer is modelled by returning the concatenation of all
    fragments written during one call;
  * floating point values never decide any claim below; the externally
    formatted axis/rate strings produced by the (external) ftoa based value
    formatter are carried as opaque strings in the environment;
  * external collaborators that are not part of the supplied source
    (settings_iterator, settings_normalize_group, setting_get_details) are
    modelled from the specification and marked as such.
-/

-- ### Decimal formatting (model of the external uitoa helper)

def digitChar (d : Nat) : Char := Char.ofNat (48 + d)

def uitoaCore : Nat → Nat → List Char → List Char
  | 0, _, acc => acc
  | fuel + 1, n, acc =>
    if n < 10 then digitChar n :: acc
    else uitoaCore fuel (n / 10) (digitChar (n % 10) :: acc)

/-- Model of the external `uitoa`: decimal representation of an unsigned value. -/
def uitoa (n : Nat) : String := String.mk (uitoaCore (n + 1) n [])

def listPrefixOf : List Char → List Char → Bool
  | [], _ => true
  | _ :: _, [] => false
  | a :: as, b :: bs => a == b && listPrefixOf as bs

def listInfixOf (pat : List Char) : List Char → Bool
  | [] => listPrefixOf pat []
  | b :: bs => listPrefixOf pat (b :: bs) || listInfixOf pat bs

def strContains (s pat : String) : Bool := listInfixOf pat.data s.data

-- ### Characters and line structure helpers

@[reducible] def noEol (s : String) : Prop := ∀ c ∈ s.data, c ≠ '\r' ∧ c ≠ '\n'

theorem strData_append (s t : String) : (s ++ t).data = s.data ++ t.data := rfl

theorem strAppend_assoc (s t u : String) : s ++ t ++ u = s ++ (t ++ u) := by
  cases s; cases t; cases u
  show String.mk _ = String.mk _
  simp [String.append, List.append_assoc]

theorem noEol_append {s t : String} (hs : noEol s) (ht : noEol t) : noEol (s ++ t) := by
  intro c hc
  rw [strData_append, List.mem_append] at hc
  rcases hc with h | h
  · exact hs c h
  · exact ht c h

theorem noEol_ite (p : Prop) [Decidable p] {s t : String} (hs : noEol s) (ht : noEol t) :
    noEol (if p then s else t) := by
  split
  · exact hs
  · exact ht

theorem uitoaCore_chars (fuel : Nat) :
    ∀ (n : Nat) (acc : List Char), (∀ c ∈ acc, ∃ d, d < 10 ∧ c = digitChar d) →
      ∀ c ∈ uitoaCore fuel n acc, ∃ d, d < 10 ∧ c = digitChar d := by
  induction fuel with
  | zero => intro n acc h c hc; exact h c hc
  | succ fuel ih =>
    intro n acc h c hc
    rw [uitoaCore] at hc
    split at hc
    · rcases List.mem_cons.mp hc with h1 | h1
      · exact ⟨n, by omega, h1⟩
      · exact h c h1
    · refine ih (n / 10) _ ?_ c hc
      intro c hc
      rcases List.mem_cons.mp hc with h1 | h1
      · exact ⟨n % 10, Nat.mod_lt _ (by omega), h1⟩
      · exact h c h1

theorem digitChar_ne_eol {d : Nat} (hd : d < 10) : digitChar d ≠ '\r' ∧ digitChar d ≠ '\n' := by
  interval_cases d <;> exact (by decide)

theorem noEol_uitoa (n : Nat) : noEol (uitoa n) := by
  intro c hc
  obtain ⟨d, hd, rfl⟩ := uitoaCore_chars (n + 1) n [] (by simp) c hc
  exact digitChar_ne_eol hd

-- ### Data model of the status report generator (report.c)

def ASCII_EOL : String := "\r\n"

inductive SysState where
  | idle | alarm | checkMode | homing | cycle | hold | jog | safetyDoor | sleep | estop | toolChange
deriving DecidableEq, Repr

/-- Membership in the state mask STATE_HOMING|STATE_CYCLE|STATE_HOLD|STATE_JOG|STATE_SAFETY_DOOR
used when resetting the two refresh counters. -/
def isActiveState : SysState → Bool
  | .homing | .cycle | .hold | .jog | .safetyDoor => true
  | _ => false

structure StatusReportFlags where
  buffer_state : Bool
  line_numbers : Bool
  feed_speed : Bool
  pin_state : Bool
  work_coord_offset : Bool
  overrides : Bool
  machine_position : Bool
  parser_state : Bool
  alarm_substate : Bool
  run_substate : Bool
deriving DecidableEq, Repr

structure AxesSignals where
  x : Bool
  y : Bool
  z : Bool
deriving DecidableEq, Repr

def AxesSignals.value (s : AxesSignals) : Bool := s.x || s.y || s.z

structure ControlSignals where
  reset : Bool
  feed_hold : Bool
  cycle_start : Bool
  safety_door_ajar : Bool
  block_delete : Bool
  stop_disable : Bool
  e_stop : Bool
  motor_warning : Bool
  motor_fault : Bool
  limits_override : Bool
deriving DecidableEq, Repr

def ControlSignals.value (s : ControlSignals) : Bool :=
  s.reset || s.feed_hold || s.cycle_start || s.safety_door_ajar || s.block_delete ||
  s.stop_disable || s.e_stop || s.motor_warning || s.motor_fault || s.limits_override

structure ProbeState where
  connected : Bool
  triggered : Bool
deriving DecidableEq, Repr

structure SpindleState where
  is_on : Bool
  ccw : Bool
  encoder_error : Bool
deriving DecidableEq, Repr

structure CoolantState where
  flood : Bool
  mist : Bool
deriving DecidableEq, Repr

def CoolantState.value (s : CoolantState) : Bool := s.flood || s.mist

/-- The report tracking flags of sys.report (report_tracking_flags_t). -/
structure ReportFlags where
  mpg_mode : Bool
  scaling : Bool
  homed : Bool
  xmode : Bool
  wco : Bool
  gwco : Bool
  overrides : Bool
  tool : Bool
  spindle : Bool
  coolant : Bool
  tlo_reference : Bool
  tool_offset : Bool
  all : Bool
deriving DecidableEq, Repr

/-- sys.report.value, the whole-word view of the flag union: nonzero iff any flag set. -/
def ReportFlags.value (r : ReportFlags) : Bool :=
  r.mpg_mode || r.scaling || r.homed || r.xmode || r.wco || r.gwco || r.overrides ||
  r.tool || r.spindle || r.coolant || r.tlo_reference || r.tool_offset || r.all

def ReportFlags.clear : ReportFlags :=
  ⟨false, false, false, false, false, false, false, false, false, false, false, false, false⟩

/-- Mutable report-layer state persisting across report_realtime_status calls:
the two refresh counters, the static probing latch and sys.report. -/
structure RState where
  wco_counter : Nat
  override_counter : Nat
  probing : Bool
  report : ReportFlags
deriving DecidableEq, Repr

structure GcStateView where
  tool_change : Bool
  diameter_mode : Bool
  coord_system_id : Nat
  tool : Nat
deriving DecidableEq, Repr

structure SysFlagsView where
  feed_hold_pending : Bool
  block_delete_enabled : Bool
  optional_stop_disable : Bool
deriving DecidableEq, Repr

/-- Everything report_realtime_status reads but does not write during one call. -/
structure Env where
  status_report : StatusReportFlags
  lathe_mode : Bool
  homing_single_axis : Bool
  homing_manual : Bool
  state : SysState
  sysf : SysFlagsView
  holding_state : Nat
  parking_state : Nat
  alarm : Nat
  probing_active : Bool
  mpg_mode : Bool
  homing_mask : Nat
  homed_mask : Nat
  tlo_reference_mask : Nat
  override_feed : Nat
  override_rapid : Nat
  override_spindle : Nat
  gc : GcStateView
  has_probe : Bool
  probe : ProbeState
  limits : AxesSignals
  control : ControlSignals
  spindle : SpindleState
  coolant : CoolantState
  variable_spindle : Bool
  has_spindle_data : Bool
  spindle_sync : Bool
  cap_mpg_mode : Bool
  cap_safety_door_ajar : Bool
  cap_stop_disable : Bool
  block_available : Nat
  rx_available : Nat
  line_number : Option Int
  spindle_rpm : Nat
  spindle_data_rpm : Nat
  pos_str : String
  wco_str : String
  rate_str : String
  scaling_axes : AxesSignals
  plugin_append : Option String
  parser_changed : Bool
  compat_level : Nat
deriving DecidableEq, Repr

/-- Default probe state used when hal.probe.get_state is absent. -/
def effProbe (env : Env) : ProbeState :=
  if env.has_probe then env.probe else { connected := true, triggered := false }

def map_coord_system (id : Nat) : String :=
  let g5x := id + 54
  if g5x > 59 then uitoa 59 ++ "." ++ uitoa (g5x - 59) else uitoa g5x

def axis_signals_chars (s : AxesSignals) : List Char :=
  (if s.x then ['X'] else []) ++ (if s.y then ['Y'] else []) ++ (if s.z then ['Z'] else [])

def axis_signals_tostring (s : AxesSignals) : String := String.mk (axis_signals_chars s)

-- ### The state segment (lines 1091-1148 of report.c)

/-- (sys.holding_state - 1) as an unsigned 32-bit value. -/
def holdSubNum (env : Env) : Nat := (((env.holding_state : Int) - 1) % (2 ^ 32)).toNat

/-- Update of the function-static probing latch performed in the STATE_CYCLE branch. -/
def probingNext (env : Env) (probing : Bool) : Bool :=
  if env.probing_active && env.status_report.run_substate then true
  else if probing then (effProbe env).triggered
  else probing

def runSubstate (env : Env) (probingNew : Bool) : String :=
  if env.sysf.feed_hold_pending then ":1"
  else if probingNew then ":2"
  else ""

def alarmStateFragment (env : Env) (reportAll : Bool) : String :=
  if (reportAll || env.status_report.alarm_substate) && env.alarm ≠ 0 then
    "Alarm:" ++ uitoa env.alarm
  else "Alarm"

/-- The displayed state: Run plus a pending tool change displays as ToolChange. -/
def displayState (env : Env) : SysState :=
  if env.gc.tool_change && env.state == SysState.cycle then SysState.toolChange else env.state

/-- State token (with any sub-state) and the updated probing latch. -/
def stateFragment (env : Env) (reportAll probing : Bool) : String × Bool :=
  match displayState env with
  | .idle => ("Idle", probing)
  | .cycle =>
    let probingNew := probingNext env probing
    ("Run" ++ runSubstate env probingNew, probingNew)
  | .hold => ("Hold:" ++ uitoa (holdSubNum env), probing)
  | .jog => ("Jog", probing)
  | .homing => ("Home", probing)
  | .estop => (alarmStateFragment env reportAll, probing)
  | .alarm => (alarmStateFragment env reportAll, probing)
  | .checkMode => ("Check", probing)
  | .safetyDoor => ("Door:" ++ uitoa env.parking_state, probing)
  | .sleep => ("Sleep", probing)
  | .toolChange => ("Tool", probing)

-- ### Unconditional position field and the flag-gated optional fields

/-- Position field, emitted on every call (lines 1161-1163). The numeric conversion
from sys.position through system_convert_array_steps_to_mpos and get_axis_values is
external to the supplied source; the formatted string is carried in the environment. -/
def positionFragment (env : Env) : String :=
  (if env.status_report.machine_position then "|MPos:" else "|WPos:") ++ env.pos_str

def bufferFragment (env : Env) : String :=
  if env.status_report.buffer_state then
    "|Bf:" ++ uitoa env.block_available ++ "," ++ uitoa env.rx_available
  else ""

def lineFragment (env : Env) : String :=
  if env.status_report.line_numbers then
    match env.line_number with
    | some n => if n > 0 then "|Ln:" ++ uitoa n.toNat else ""
    | none => ""
  else ""

def fsFragment (env : Env) : String :=
  if env.status_report.feed_speed then
    if env.variable_spindle then
      "|FS:" ++ env.rate_str ++ "," ++ uitoa (if env.spindle.is_on then env.spindle_rpm else 0) ++
        (if env.has_spindle_data then "," ++ uitoa env.spindle_data_rpm else "")
    else "|F:" ++ env.rate_str
  else ""

def limitChars (env : Env) : List Char :=
  if env.limits.value && !env.control.limits_override then axis_signals_chars env.limits
  else []

def ctrlChars (env : Env) : List Char :=
  if env.control.value then
    (if env.control.safety_door_ajar && env.cap_safety_door_ajar then ['D'] else []) ++
    (if env.control.reset then ['R'] else []) ++
    (if env.control.feed_hold then ['H'] else []) ++
    (if env.control.cycle_start then ['S'] else []) ++
    (if env.control.e_stop then ['E'] else []) ++
    (if env.control.block_delete && env.sysf.block_delete_enabled then ['L'] else []) ++
    (if (if env.cap_stop_disable then env.control.stop_disable else env.sysf.optional_stop_disable)
       then ['T'] else []) ++
    (if env.control.motor_warning then ['W'] else []) ++
    (if env.control.motor_fault then ['M'] else [])
  else []

/-- The letters of the Pn field, in the fixed order of report.c lines 1205-1233. -/
def pinChars (env : Env) : List Char :=
  (if (effProbe env).triggered then ['P'] else []) ++
  (if !(effProbe env).connected then ['O'] else []) ++
  limitChars env ++ ctrlChars env

/-- The emission condition of the Pn field (line 1199). -/
def pinGate (env : Env) : Bool :=
  env.limits.value || env.control.value || (effProbe env).triggered ||
  !(effProbe env).connected || env.sysf.block_delete_enabled

def pinFragment (env : Env) : String :=
  if env.status_report.pin_state && pinGate env then "|Pn:" ++ String.mk (pinChars env) else ""

-- ### Refresh counters (lines 45-71 and 1239-1263)

def REPORT_OVERRIDE_REFRESH_BUSY_COUNT : Nat := 20
def REPORT_OVERRIDE_REFRESH_IDLE_COUNT : Nat := 10
def REPORT_WCO_REFRESH_BUSY_COUNT : Nat := 30
def REPORT_WCO_REFRESH_IDLE_COUNT : Nat := 10

def wcoIntervalFor (env : Env) : Nat :=
  if isActiveState env.state then REPORT_WCO_REFRESH_BUSY_COUNT
  else REPORT_WCO_REFRESH_IDLE_COUNT

def overrideIntervalFor (env : Env) : Nat :=
  if isActiveState env.state then REPORT_OVERRIDE_REFRESH_BUSY_COUNT
  else REPORT_OVERRIDE_REFRESH_IDLE_COUNT

/-- The WCO counter block (lines 1239-1248). -/
def wcoCounterUpdate (env : Env) (rs : RState) : RState :=
  if env.status_report.work_coord_offset then
    if rs.wco_counter > 0 && !rs.report.wco then { rs with wco_counter := rs.wco_counter - 1 }
    else { rs with wco_counter := wcoIntervalFor env - 1 }
  else { rs with report := { rs.report with wco := false } }

/-- The override counter block (lines 1250-1263). -/
def overrideCounterUpdate (env : Env) (rs1 : RState) : RState :=
  if env.status_report.overrides then
    if rs1.override_counter > 0 && !rs1.report.overrides then
      { rs1 with override_counter := rs1.override_counter - 1 }
    else
      { rs1 with
        override_counter := overrideIntervalFor env - 1
        report := { rs1.report with
          overrides := true
          spindle := rs1.report.spindle || env.spindle.is_on
          coolant := rs1.report.coolant || env.coolant.value } }
  else { rs1 with report := { rs1.report with overrides := false } }

/-- The two counter-update blocks, executed before the optional field group. -/
def rsAfterCounters (env : Env) (rs : RState) : RState :=
  overrideCounterUpdate env (wcoCounterUpdate env rs)

/-- Whether the WCO field is written during this call (lines 1265-1270). -/
def wcoShown (env : Env) (rs1 : RState) : Bool :=
  (rs1.report.value || env.gc.tool_change) && rs1.report.wco

/-- Whether the Ov field is written during this call (lines 1265, 1277-1281). -/
def ovShown (env : Env) (rs1 : RState) : Bool :=
  (rs1.report.value || env.gc.tool_change) && rs1.report.overrides

def aChars (env : Env) (reportTool : Bool) : List Char :=
  (if env.spindle.is_on then [if env.spindle.ccw then 'C' else 'S'] else []) ++
  (if env.compat_level = 0 && env.spindle.encoder_error && env.spindle_sync then ['E'] else []) ++
  (if env.coolant.flood then ['F'] else []) ++
  (if env.coolant.mist then ['M'] else []) ++
  (if env.gc.tool_change && !reportTool then ['T'] else [])

def homedFragment (env : Env) : String :=
  let homingMask := if env.homing_mask ≠ 0 then env.homing_mask else 7
  "|H:" ++ (if homingMask &&& env.homed_mask == homingMask then "1" else "0") ++
  (if env.homing_single_axis then "," ++ uitoa env.homed_mask else "")

/-- The dirty-flag gated optional field group (lines 1265-1337). -/
def optionalFragment (env : Env) (rs1 : RState) : String :=
  if rs1.report.value || env.gc.tool_change then
    (if rs1.report.wco then "|WCO:" ++ env.wco_str else "") ++
    (if rs1.report.gwco then "|WCS:G" ++ map_coord_system env.gc.coord_system_id else "") ++
    (if rs1.report.overrides then
      "|Ov:" ++ uitoa env.override_feed ++ "," ++ uitoa env.override_rapid ++ "," ++
        uitoa env.override_spindle
     else "") ++
    (if rs1.report.spindle || rs1.report.coolant || rs1.report.tool || env.gc.tool_change then
      "|A:" ++ String.mk (aChars env rs1.report.tool)
     else "") ++
    (if rs1.report.scaling then "|Sc:" ++ axis_signals_tostring env.scaling_axes else "") ++
    (if rs1.report.mpg_mode && env.cap_mpg_mode then
      (if env.mpg_mode then "|MPG:1" else "|MPG:0")
     else "") ++
    (if rs1.report.homed &&
        (env.homing_mask ≠ 0 || env.homing_single_axis || env.homing_manual) then
      homedFragment env
     else "") ++
    (if rs1.report.xmode && env.lathe_mode then
      (if env.gc.diameter_mode then "|D:1" else "|D:0")
     else "") ++
    (if rs1.report.tool then "|T:" ++ uitoa env.gc.tool else "") ++
    (if rs1.report.tlo_reference then
      "|TLR:" ++ uitoa (if env.tlo_reference_mask ≠ 0 then 1 else 0)
     else "")
  else ""

def pluginStr (env : Env) : String :=
  match env.plugin_append with
  | some s => s
  | none => ""

/-- Plugin appended fields, then the FW field (compat level at most 1, full report). -/
def trailingFragment (env : Env) (rs1 : RState) : String :=
  pluginStr env ++
  (if env.compat_level ≤ 1 && rs1.report.all then "|FW:grblHAL" else "")

/-- End of call: sys.report.value = 0, then re-arm the WCO pending flag (lines 1376-1377). -/
def finalizeRState (env : Env) (rs1 : RState) (probingNew : Bool) : RState :=
  { wco_counter := rs1.wco_counter
    override_counter := rs1.override_counter
    probing := probingNew
    report := { ReportFlags.clear with
      wco := env.status_report.work_coord_offset && rs1.wco_counter == 0 } }

structure RTOut where
  out : String
  rs : RState
  gcode_report_signaled : Bool
  tlo_report_signaled : Bool
deriving DecidableEq, Repr

/-- Everything written before the closing delimiter. -/
def rtBody (env : Env) (rs : RState) : String :=
  "<" ++ (stateFragment env rs.report.all rs.probing).1 ++ positionFragment env ++
    bufferFragment env ++ lineFragment env ++ fsFragment env ++ pinFragment env ++
    optionalFragment env (rsAfterCounters env rs) ++
    trailingFragment env (rsAfterCounters env rs)

/-- One call of report_realtime_status (lines 1073-1378): the concatenation of all
fragments written to the stream, the updated report-layer state, and the two
exec-flag signals raised by the parser-state change detector. The comparison of
feed rate, spindle speed, tool and modal state against the previous call is
abstracted as the environment bit parser_changed; it produces no stream output. -/
def report_realtime_status (env : Env) (rs : RState) : RTOut :=
  let sf := stateFragment env rs.report.all rs.probing
  let rs1 := rsAfterCounters env rs
  let fwShown := env.compat_level ≤ 1 && rs1.report.all
  { out := rtBody env rs ++ (">" ++ ASCII_EOL)
    rs := finalizeRState env rs1 sf.2
    gcode_report_signaled := !fwShown && env.status_report.parser_state && env.parser_changed
    tlo_report_signaled := !fwShown && env.status_report.parser_state && rs1.report.tool_offset }

/-- report_init_message (lines 377-385, COMPATIBILITY_LEVEL 0): resets both refresh
counters and writes the welcome banner (version text is external). -/
def report_init_message (version : String) (rs : RState) : String × RState :=
  (ASCII_EOL ++ "GrblHAL " ++ version ++ " ['$' or '$HELP' for help]" ++ ASCII_EOL,
   { rs with override_counter := 0, wco_counter := 0 })

-- ### Iterated calls

def rtNext (env : Env) (rs : RState) : RState := (report_realtime_status env rs).rs

def rtState (env : Env) (rs : RState) : Nat → RState
  | 0 => rs
  | n + 1 => rtNext env (rtState env rs n)

def rtOutAt (env : Env) (rs : RState) (n : Nat) : String :=
  (report_realtime_status env (rtState env rs n)).out

def wcoShownAt (env : Env) (rs : RState) (n : Nat) : Bool :=
  wcoShown env (rsAfterCounters env (rtState env rs n))

def ovShownAt (env : Env) (rs : RState) (n : Nat) : Bool :=
  ovShown env (rsAfterCounters env (rtState env rs n))

-- ### Abstract behaviour of one refresh counter across calls

/-- One call advances a refresh counter: decrement when positive, otherwise reload
with interval - 1 (the reload call is the one whose field is emitted). -/
def refreshNext (T c : Nat) : Nat := if c = 0 then T - 1 else c - 1

def refreshSeq (T c : Nat) : Nat → Nat
  | 0 => c
  | n + 1 => refreshNext T (refreshSeq T c n)

theorem refreshSeq_add (T c m n : Nat) :
    refreshSeq T c (m + n) = refreshSeq T (refreshSeq T c m) n := by
  induction n with
  | zero => rfl
  | succ n ih => simp [refreshSeq, ih]

theorem succ_mod_split (T a : Nat) (hT : 1 ≤ T) :
    (a + 1) % T = if a % T = T - 1 then 0 else a % T + 1 := by
  have hd := Nat.div_add_mod a T
  have hm : a % T < T := Nat.mod_lt _ (by omega)
  split
  · rename_i h
    have hmul : T * (a / T + 1) = T * (a / T) + T := by ring
    have ha : a + 1 = T * (a / T + 1) := by omega
    rw [ha]
    exact Nat.mul_mod_right T _
  · rename_i h
    have ha : a + 1 = T * (a / T) + (a % T + 1) := by omega
    rw [ha, Nat.mul_add_mod]
    exact Nat.mod_eq_of_lt (by omega)

theorem refreshSeq_closed (T c : Nat) (hT : 1 ≤ T) (n : Nat) :
    refreshSeq T c n = if n ≤ c then c - n else T - 1 - (n - c - 1) % T := by
  induction n with
  | zero => simp [refreshSeq]
  | succ n ih =>
    rw [refreshSeq, ih, refreshNext]
    rcases Nat.lt_trichotomy n c with h | h | h
    · have h1 : (if n ≤ c then c - n else T - 1 - (n - c - 1) % T) = c - n := if_pos (by omega)
      rw [h1, if_neg (show ¬(c - n = 0) by omega), if_pos (show n + 1 ≤ c by omega)]
      omega
    · subst h
      have h1 : (if n ≤ n then n - n else T - 1 - (n - n - 1) % T) = 0 := by simp
      rw [h1, if_pos (show (0 : Nat) = 0 from rfl), if_neg (show ¬(n + 1 ≤ n) by omega)]
      have h2 : n + 1 - n - 1 = 0 := by omega
      rw [h2, Nat.zero_mod]
      omega
    · have hm : (n - c - 1) % T < T := Nat.mod_lt _ (by omega)
      have h1 : (if n ≤ c then c - n else T - 1 - (n - c - 1) % T) =
          T - 1 - (n - c - 1) % T := if_neg (by omega)
      rw [h1]
      have hsu : n + 1 - c - 1 = (n - c - 1) + 1 := by omega
      have hstep : (n + 1 - c - 1) % T =
          if (n - c - 1) % T = T - 1 then 0 else (n - c - 1) % T + 1 := by
        rw [hsu]
        exact succ_mod_split T (n - c - 1) hT
      by_cases hz : (n - c - 1) % T = T - 1
      · rw [if_pos hz] at hstep
        rw [if_pos (show T - 1 - (n - c - 1) % T = 0 by omega),
            if_neg (show ¬(n + 1 ≤ c) by omega)]
        omega
      · rw [if_neg hz] at hstep
        rw [if_neg (show ¬(T - 1 - (n - c - 1) % T = 0) by omega),
            if_neg (show ¬(n + 1 ≤ c) by omega)]
        omega

/-- The counter is zero exactly at call c and every T calls thereafter. -/
theorem refreshSeq_eq_zero_iff (T c : Nat) (hT : 1 ≤ T) (n : Nat) :
    refreshSeq T c n = 0 ↔ c ≤ n ∧ (n - c) % T = 0 := by
  rw [refreshSeq_closed T c hT n]
  split
  · rename_i h
    constructor
    · intro hz
      have hnc : n = c := by omega
      subst hnc
      simp
    · intro hcn
      omega
  · rename_i h
    have hm : (n - c - 1) % T < T := Nat.mod_lt _ (by omega)
    have hrep : n - c = (n - c - 1) + 1 := by omega
    have hstep : (n - c) % T =
        if (n - c - 1) % T = T - 1 then 0 else (n - c - 1) % T + 1 := by
      conv_lhs => rw [hrep]
      exact succ_mod_split T (n - c - 1) hT
    by_cases hz : (n - c - 1) % T = T - 1
    · rw [if_pos hz] at hstep
      constructor
      · intro _
        exact ⟨by omega, hstep⟩
      · intro _
        omega
    · rw [if_neg hz] at hstep
      constructor
      · intro h2
        omega
      · intro h2
        omega

/-- There is a multiple-of-T hit inside every window of W calls, W at least T,
provided the starting counter is below W. -/
theorem refresh_hit_in_window (T c W : Nat) (hT : 1 ≤ T) (hTW : T ≤ W) (hc : c < W) (k : Nat) :
    ∃ j, k ≤ j ∧ j < k + W ∧ refreshSeq T c j = 0 := by
  by_cases hk : k ≤ c
  · exact ⟨c, hk, by omega, by rw [refreshSeq_eq_zero_iff T c hT]; simp⟩
  · push_neg at hk
    have hq := Nat.div_add_mod (k - c) T
    have hrlt : (k - c) % T < T := Nat.mod_lt _ (by omega)
    by_cases hr0 : (k - c) % T = 0
    · refine ⟨k, le_refl k, by omega, ?_⟩
      rw [refreshSeq_eq_zero_iff T c hT]
      exact ⟨by omega, hr0⟩
    · refine ⟨c + (T * ((k - c) / T) + T), by omega, by omega, ?_⟩
      rw [refreshSeq_eq_zero_iff T c hT]
      refine ⟨by omega, ?_⟩
      have h2 : c + (T * ((k - c) / T) + T) - c = T * ((k - c) / T + 1) := by
        rw [Nat.mul_add, Nat.mul_one]
        omega
      rw [h2]
      exact Nat.mul_mod_right T _

/-- Two distinct zero hits of the same counter are at least T calls apart. -/
theorem refresh_hits_spaced (T c : Nat) (hT : 1 ≤ T) (j1 j2 : Nat) (h12 : j1 < j2)
    (h1 : refreshSeq T c j1 = 0) (h2 : refreshSeq T c j2 = 0) : j1 + T ≤ j2 := by
  rw [refreshSeq_eq_zero_iff T c hT] at h1 h2
  obtain ⟨hc1, hm1⟩ := h1
  obtain ⟨hc2, hm2⟩ := h2
  obtain ⟨a, ha⟩ := Nat.dvd_of_mod_eq_zero hm1
  obtain ⟨b, hb⟩ := Nat.dvd_of_mod_eq_zero hm2
  have hab : a < b := by
    rcases Nat.lt_or_ge a b with h | h
    · exact h
    · exfalso
      have : T * b ≤ T * a := Nat.mul_le_mul_left T h
      omega
  have : T * (a + 1) ≤ T * b := Nat.mul_le_mul_left T (by omega)
  rw [Nat.mul_add, Nat.mul_one] at this
  omega

-- ### Transfer: the concrete report call drives each counter like refreshNext

theorem wcoInterval_pos (env : Env) : 1 ≤ wcoIntervalFor env := by
  unfold wcoIntervalFor REPORT_WCO_REFRESH_BUSY_COUNT REPORT_WCO_REFRESH_IDLE_COUNT
  split <;> omega

theorem overrideInterval_pos (env : Env) : 1 ≤ overrideIntervalFor env := by
  unfold overrideIntervalFor REPORT_OVERRIDE_REFRESH_BUSY_COUNT REPORT_OVERRIDE_REFRESH_IDLE_COUNT
  split <;> omega

theorem ovUpdate_wco_counter (env : Env) (rs1 : RState) :
    (overrideCounterUpdate env rs1).wco_counter = rs1.wco_counter := by
  unfold overrideCounterUpdate
  split
  · split <;> rfl
  · rfl

theorem ovUpdate_wco_flag (env : Env) (rs1 : RState) :
    (overrideCounterUpdate env rs1).report.wco = rs1.report.wco := by
  unfold overrideCounterUpdate
  split
  · split <;> rfl
  · rfl

theorem wcoUpdate_ov_counter (env : Env) (rs : RState) :
    (wcoCounterUpdate env rs).override_counter = rs.override_counter := by
  unfold wcoCounterUpdate
  split
  · split <;> rfl
  · rfl

theorem wcoUpdate_ov_flag (env : Env) (rs : RState) :
    (wcoCounterUpdate env rs).report.overrides = rs.report.overrides := by
  unfold wcoCounterUpdate
  split
  · split <;> rfl
  · rfl

theorem wcoUpdate_counter (env : Env) (rs : RState)
    (hw : env.status_report.work_coord_offset = true)
    (hcons : rs.report.wco = (rs.wco_counter == 0)) :
    (wcoCounterUpdate env rs).wco_counter = refreshNext (wcoIntervalFor env) rs.wco_counter := by
  unfold wcoCounterUpdate refreshNext
  by_cases hc : rs.wco_counter = 0
  · simp [hw, hc, hcons]
  · simp [hw, hcons, hc, Nat.pos_of_ne_zero hc]

theorem wcoUpdate_flag (env : Env) (rs : RState)
    (hw : env.status_report.work_coord_offset = true) :
    (wcoCounterUpdate env rs).report.wco = rs.report.wco := by
  unfold wcoCounterUpdate
  simp only [hw, if_true]
  split <;> rfl

theorem rsAfterCounters_wco_counter (env : Env) (rs : RState)
    (hw : env.status_report.work_coord_offset = true)
    (hcons : rs.report.wco = (rs.wco_counter == 0)) :
    (rsAfterCounters env rs).wco_counter = refreshNext (wcoIntervalFor env) rs.wco_counter := by
  unfold rsAfterCounters
  rw [ovUpdate_wco_counter, wcoUpdate_counter env rs hw hcons]

theorem rsAfterCounters_wco_flag (env : Env) (rs : RState)
    (hw : env.status_report.work_coord_offset = true) :
    (rsAfterCounters env rs).report.wco = rs.report.wco := by
  unfold rsAfterCounters
  rw [ovUpdate_wco_flag, wcoUpdate_flag env rs hw]

theorem rtNext_wco_counter (env : Env) (rs : RState)
    (hw : env.status_report.work_coord_offset = true)
    (hcons : rs.report.wco = (rs.wco_counter == 0)) :
    (rtNext env rs).wco_counter = refreshNext (wcoIntervalFor env) rs.wco_counter := by
  show (finalizeRState env (rsAfterCounters env rs) _).wco_counter = _
  unfold finalizeRState
  exact rsAfterCounters_wco_counter env rs hw hcons

theorem rtNext_wco_flag (env : Env) (rs : RState)
    (hw : env.status_report.work_coord_offset = true) :
    (rtNext env rs).report.wco = ((rtNext env rs).wco_counter == 0) := by
  show (finalizeRState env (rsAfterCounters env rs) _).report.wco = _
  unfold finalizeRState
  simp only [hw, Bool.true_and]
  rfl

theorem ReportFlags.value_of_wco {r : ReportFlags} (h : r.wco = true) : r.value = true := by
  unfold ReportFlags.value
  rw [h]
  simp

theorem ReportFlags.value_of_overrides {r : ReportFlags} (h : r.overrides = true) :
    r.value = true := by
  unfold ReportFlags.value
  rw [h]
  simp

theorem wcoShown_step (env : Env) (rs : RState)
    (hw : env.status_report.work_coord_offset = true)
    (hcons : rs.report.wco = (rs.wco_counter == 0)) :
    wcoShown env (rsAfterCounters env rs) = (rs.wco_counter == 0) := by
  have hflag := rsAfterCounters_wco_flag env rs hw
  by_cases hc : rs.wco_counter = 0
  · have hwco : (rsAfterCounters env rs).report.wco = true := by
      rw [hflag, hcons, hc]
      rfl
    unfold wcoShown
    rw [hwco, ReportFlags.value_of_wco hwco, hc]
    rfl
  · unfold wcoShown
    rw [hflag, hcons]
    simp [hc]

theorem rtState_wco_invariant (env : Env) (rs : RState)
    (hw : env.status_report.work_coord_offset = true)
    (hcons : rs.report.wco = (rs.wco_counter == 0)) (n : Nat) :
    (rtState env rs n).wco_counter = refreshSeq (wcoIntervalFor env) rs.wco_counter n ∧
    (rtState env rs n).report.wco = ((rtState env rs n).wco_counter == 0) := by
  induction n with
  | zero => exact ⟨rfl, hcons⟩
  | succ n ih =>
    obtain ⟨hcount, hflag⟩ := ih
    constructor
    · show (rtNext env (rtState env rs n)).wco_counter = _
      rw [rtNext_wco_counter env _ hw hflag, hcount]
      rfl
    · exact rtNext_wco_flag env _ hw

/-- The WCO field of call n is exactly the zero hit of the abstract counter. -/
theorem wcoShownAt_iff (env : Env) (rs : RState)
    (hw : env.status_report.work_coord_offset = true)
    (hcons : rs.report.wco = (rs.wco_counter == 0)) (n : Nat) :
    wcoShownAt env rs n = (refreshSeq (wcoIntervalFor env) rs.wco_counter n == 0) := by
  obtain ⟨hcount, hflag⟩ := rtState_wco_invariant env rs hw hcons n
  unfold wcoShownAt
  rw [wcoShown_step env _ hw hflag, hcount]

theorem ovUpdate_counter (env : Env) (rs1 : RState)
    (ho : env.status_report.overrides = true)
    (hflag : rs1.report.overrides = false) :
    (overrideCounterUpdate env rs1).override_counter =
      refreshNext (overrideIntervalFor env) rs1.override_counter := by
  unfold overrideCounterUpdate refreshNext
  by_cases hc : rs1.override_counter = 0
  · simp [ho, hc, hflag]
  · simp [ho, hflag, hc, Nat.pos_of_ne_zero hc]

theorem rsAfterCounters_ov_counter (env : Env) (rs : RState)
    (ho : env.status_report.overrides = true)
    (hflag : rs.report.overrides = false) :
    (rsAfterCounters env rs).override_counter =
      refreshNext (overrideIntervalFor env) rs.override_counter := by
  unfold rsAfterCounters
  rw [ovUpdate_counter env _ ho (by rw [wcoUpdate_ov_flag]; exact hflag),
      wcoUpdate_ov_counter]

theorem rtNext_ov_counter (env : Env) (rs : RState)
    (ho : env.status_report.overrides = true)
    (hflag : rs.report.overrides = false) :
    (rtNext env rs).override_counter =
      refreshNext (overrideIntervalFor env) rs.override_counter := by
  show (finalizeRState env (rsAfterCounters env rs) _).override_counter = _
  unfold finalizeRState
  exact rsAfterCounters_ov_counter env rs ho hflag

theorem rtNext_ov_flag (env : Env) (rs : RState) :
    (rtNext env rs).report.overrides = false := rfl

theorem ovShown_step (env : Env) (rs : RState)
    (ho : env.status_report.overrides = true)
    (hflag : rs.report.overrides = false) :
    ovShown env (rsAfterCounters env rs) = (rs.override_counter == 0) := by
  have h1 : (wcoCounterUpdate env rs).override_counter = rs.override_counter :=
    wcoUpdate_ov_counter env rs
  have h2 : (wcoCounterUpdate env rs).report.overrides = false := by
    rw [wcoUpdate_ov_flag]
    exact hflag
  unfold ovShown rsAfterCounters overrideCounterUpdate
  by_cases hc : rs.override_counter = 0
  · simp [ho, h1, h2, hc, ReportFlags.value]
  · simp [ho, h1, h2, hc, Nat.pos_of_ne_zero hc]

theorem rtState_ov_invariant (env : Env) (rs : RState)
    (ho : env.status_report.overrides = true)
    (hflag : rs.report.overrides = false) (n : Nat) :
    (rtState env rs n).override_counter =
      refreshSeq (overrideIntervalFor env) rs.override_counter n ∧
    (rtState env rs n).report.overrides = false := by
  induction n with
  | zero => exact ⟨rfl, hflag⟩
  | succ n ih =>
    obtain ⟨hcount, hfl⟩ := ih
    refine ⟨?_, rtNext_ov_flag env _⟩
    show (rtNext env (rtState env rs n)).override_counter = _
    rw [rtNext_ov_counter env _ ho hfl, hcount]
    rfl

/-- The Ov field of call n is exactly the zero hit of the abstract counter. -/
theorem ovShownAt_iff (env : Env) (rs : RState)
    (ho : env.status_report.overrides = true)
    (hflag : rs.report.overrides = false) (n : Nat) :
    ovShownAt env rs n = (refreshSeq (overrideIntervalFor env) rs.override_counter n == 0) := by
  obtain ⟨hcount, hfl⟩ := rtState_ov_invariant env rs ho hflag n
  unfold ovShownAt
  rw [ovShown_step env _ ho hfl, hcount]

-- ### Substring occurrence at the Prop level

def containsSub (s pat : String) : Prop := ∃ pre suf, s = pre ++ pat ++ suf

theorem strAppend_empty (s : String) : s ++ "" = s := by
  cases s
  show String.mk _ = String.mk _
  simp [String.append]

theorem containsSub_appL {s pat : String} (t : String) (h : containsSub s pat) :
    containsSub (s ++ t) pat := by
  obtain ⟨pre, suf, rfl⟩ := h
  exact ⟨pre, suf ++ t, by simp only [strAppend_assoc]⟩

theorem containsSub_appR {t pat : String} (s : String) (h : containsSub t pat) :
    containsSub (s ++ t) pat := by
  obtain ⟨pre, suf, rfl⟩ := h
  exact ⟨s ++ pre, suf, by simp only [strAppend_assoc]⟩

theorem containsSub_left (pat t : String) : containsSub (pat ++ t) pat := ⟨"", t, rfl⟩

-- ### A shown WCO / Ov flag puts the field on the wire

theorem wcoShown_out (env : Env) (rs : RState)
    (h : wcoShown env (rsAfterCounters env rs) = true) :
    containsSub (report_realtime_status env rs).out "|WCO:" := by
  unfold wcoShown at h
  rw [Bool.and_eq_true] at h
  obtain ⟨hgate, hwcoflag⟩ := h
  show containsSub (rtBody env rs ++ (">" ++ ASCII_EOL)) _
  apply containsSub_appL
  unfold rtBody optionalFragment
  rw [if_pos hgate, if_pos hwcoflag]
  apply containsSub_appL
  apply containsSub_appR
  apply containsSub_appL
  apply containsSub_appL
  apply containsSub_appL
  apply containsSub_appL
  apply containsSub_appL
  apply containsSub_appL
  apply containsSub_appL
  apply containsSub_appL
  apply containsSub_appL
  exact containsSub_left _ _

theorem ovShown_out (env : Env) (rs : RState)
    (h : ovShown env (rsAfterCounters env rs) = true) :
    containsSub (report_realtime_status env rs).out "|Ov:" := by
  unfold ovShown at h
  rw [Bool.and_eq_true] at h
  obtain ⟨hgate, hovflag⟩ := h
  show containsSub (rtBody env rs ++ (">" ++ ASCII_EOL)) _
  apply containsSub_appL
  unfold rtBody optionalFragment
  rw [if_pos hgate, if_pos hovflag]
  apply containsSub_appL
  apply containsSub_appR
  apply containsSub_appL
  apply containsSub_appL
  apply containsSub_appL
  apply containsSub_appL
  apply containsSub_appL
  apply containsSub_appL
  apply containsSub_appL
  apply containsSub_appR
  apply containsSub_appL
  apply containsSub_appL
  apply containsSub_appL
  apply containsSub_appL
  exact containsSub_left _ _

-- ### Concrete environments for witnesses and counterexamples

def baseStatusFlags : StatusReportFlags :=
  { buffer_state := false, line_numbers := false, feed_speed := false, pin_state := false,
    work_coord_offset := false, overrides := false, machine_position := true,
    parser_state := false, alarm_substate := false, run_substate := false }

def baseEnv : Env :=
  { status_report := baseStatusFlags
    lathe_mode := false
    homing_single_axis := false
    homing_manual := false
    state := SysState.idle
    sysf := { feed_hold_pending := false, block_delete_enabled := false,
              optional_stop_disable := false }
    holding_state := 0
    parking_state := 0
    alarm := 0
    probing_active := false
    mpg_mode := false
    homing_mask := 0
    homed_mask := 0
    tlo_reference_mask := 0
    override_feed := 100
    override_rapid := 100
    override_spindle := 100
    gc := { tool_change := false, diameter_mode := false, coord_system_id := 0, tool := 0 }
    has_probe := true
    probe := { connected := true, triggered := false }
    limits := { x := false, y := false, z := false }
    control := { reset := false, feed_hold := false, cycle_start := false,
                 safety_door_ajar := false, block_delete := false, stop_disable := false,
                 e_stop := false, motor_warning := false, motor_fault := false,
                 limits_override := false }
    spindle := { is_on := false, ccw := false, encoder_error := false }
    coolant := { flood := false, mist := false }
    variable_spindle := false
    has_spindle_data := false
    spindle_sync := false
    cap_mpg_mode := false
    cap_safety_door_ajar := false
    cap_stop_disable := false
    block_available := 0
    rx_available := 0
    line_number := none
    spindle_rpm := 0
    spindle_data_rpm := 0
    pos_str := "0.000,0.000,0.000"
    wco_str := "0.000,0.000,0.000"
    rate_str := "0"
    scaling_axes := { x := false, y := false, z := false }
    plugin_append := none
    parser_changed := false
    compat_level := 0 }

def rsClear : RState :=
  { wco_counter := 0, override_counter := 0, probing := false, report := ReportFlags.clear }

-- idle machine, WCO reporting enabled, counter carried over from a busy phase
def envC2 : Env :=
  { baseEnv with status_report := { baseStatusFlags with work_coord_offset := true } }

def rsC2 : RState := { rsClear with wco_counter := 29 }

-- both throttled reports enabled, idle machine, steady state with the counter expired
def envC2ov : Env :=
  { baseEnv with
    status_report := { baseStatusFlags with work_coord_offset := true, overrides := true } }

def rsCons : RState := { rsClear with report := { ReportFlags.clear with wco := true } }

theorem rtState_succ_left (env : Env) (rs : RState) (n : Nat) :
    rtState env rs (n + 1) = rtState env (rtNext env rs) n := by
  induction n with
  | zero => rfl
  | succ n ih =>
    show rtNext env (rtState env rs (n + 1)) = rtNext env (rtState env (rtNext env rs) n)
    rw [ih]

/-- C2 counterexample: with WCO reporting enabled and the machine held in a
non-active state throughout, starting from the reachable steady state left by a
busy phase (wco counter 29, pending flag consistent), ten consecutive calls -- a
full idle_interval window -- emit no WCO field, refuting the claimed idle-interval
lower bound. -/
theorem C2_counterexample :
    isActiveState envC2.state = false ∧
    envC2.status_report.work_coord_offset = true ∧
    rsC2.report.wco = (rsC2.wco_counter == 0) ∧
    REPORT_WCO_REFRESH_IDLE_COUNT = 10 ∧
    (∀ j, j < 10 → wcoShownAt envC2 rsC2 j = false) := by
  refine ⟨rfl, rfl, rfl, rfl, ?_⟩
  decide

/-- C2 (amended): under the source constants (WCO busy 30 / idle 10, override busy
20 / idle 10), with both throttled reports enabled and starting from a reachable
steady state (pending flags consistent with the counters, counters below the busy
interval), each field appears at least once in every window of busy_interval
consecutive calls -- not idle_interval: on entry to the idle state the carried-over
busy counter can stretch the first gap up to busy_interval -- and two consecutive
appearances are at least interval(state) apart (busy interval while active, idle
interval otherwise), so each field appears at most once in any window of
interval - 1 calls; a shown flag puts the field on the wire; and busy >= idle
holds for both counters. -/
theorem C2_refresh_counter_bounds (env : Env) (rs : RState)
    (hw : env.status_report.work_coord_offset = true)
    (ho : env.status_report.overrides = true)
    (hwcons : rs.report.wco = (rs.wco_counter == 0))
    (hocons : rs.report.overrides = false)
    (hwb : rs.wco_counter < REPORT_WCO_REFRESH_BUSY_COUNT)
    (hob : rs.override_counter < REPORT_OVERRIDE_REFRESH_BUSY_COUNT) :
    (∀ k, ∃ j, k ≤ j ∧ j < k + REPORT_WCO_REFRESH_BUSY_COUNT ∧ wcoShownAt env rs j = true) ∧
    (∀ j1 j2, j1 < j2 → wcoShownAt env rs j1 = true → wcoShownAt env rs j2 = true →
      j1 + wcoIntervalFor env ≤ j2) ∧
    (∀ k, ∃ j, k ≤ j ∧ j < k + REPORT_OVERRIDE_REFRESH_BUSY_COUNT ∧
      ovShownAt env rs j = true) ∧
    (∀ j1 j2, j1 < j2 → ovShownAt env rs j1 = true → ovShownAt env rs j2 = true →
      j1 + overrideIntervalFor env ≤ j2) ∧
    (∀ n, wcoShownAt env rs n = true → containsSub (rtOutAt env rs n) "|WCO:") ∧
    (∀ n, ovShownAt env rs n = true → containsSub (rtOutAt env rs n) "|Ov:") ∧
    REPORT_WCO_REFRESH_IDLE_COUNT ≤ REPORT_WCO_REFRESH_BUSY_COUNT ∧
    REPORT_OVERRIDE_REFRESH_IDLE_COUNT ≤ REPORT_OVERRIDE_REFRESH_BUSY_COUNT := by
  have hT := wcoInterval_pos env
  have hTo := overrideInterval_pos env
  have hTW : wcoIntervalFor env ≤ REPORT_WCO_REFRESH_BUSY_COUNT := by
    unfold wcoIntervalFor REPORT_WCO_REFRESH_BUSY_COUNT REPORT_WCO_REFRESH_IDLE_COUNT
    split <;> omega
  have hTWo : overrideIntervalFor env ≤ REPORT_OVERRIDE_REFRESH_BUSY_COUNT := by
    unfold overrideIntervalFor REPORT_OVERRIDE_REFRESH_BUSY_COUNT
      REPORT_OVERRIDE_REFRESH_IDLE_COUNT
    split <;> omega
  refine ⟨?_, ?_, ?_, ?_, ?_, ?_, by decide, by decide⟩
  · intro k
    obtain ⟨j, h1, h2, h3⟩ := refresh_hit_in_window (wcoIntervalFor env) rs.wco_counter
      REPORT_WCO_REFRESH_BUSY_COUNT hT hTW hwb k
    refine ⟨j, h1, h2, ?_⟩
    rw [wcoShownAt_iff env rs hw hwcons j, h3]
    rfl
  · intro j1 j2 h12 hs1 hs2
    rw [wcoShownAt_iff env rs hw hwcons] at hs1 hs2
    have e1 : refreshSeq (wcoIntervalFor env) rs.wco_counter j1 = 0 := by
      simpa using hs1
    have e2 : refreshSeq (wcoIntervalFor env) rs.wco_counter j2 = 0 := by
      simpa using hs2
    exact refresh_hits_spaced _ _ hT j1 j2 h12 e1 e2
  · intro k
    obtain ⟨j, h1, h2, h3⟩ := refresh_hit_in_window (overrideIntervalFor env) rs.override_counter
      REPORT_OVERRIDE_REFRESH_BUSY_COUNT hTo hTWo hob k
    refine ⟨j, h1, h2, ?_⟩
    rw [ovShownAt_iff env rs ho hocons j, h3]
    rfl
  · intro j1 j2 h12 hs1 hs2
    rw [ovShownAt_iff env rs ho hocons] at hs1 hs2
    have e1 : refreshSeq (overrideIntervalFor env) rs.override_counter j1 = 0 := by
      simpa using hs1
    have e2 : refreshSeq (overrideIntervalFor env) rs.override_counter j2 = 0 := by
      simpa using hs2
    exact refresh_hits_spaced _ _ hTo j1 j2 h12 e1 e2
  · intro n hn
    exact wcoShown_out env (rtState env rs n) hn
  · intro n hn
    exact ovShown_out env (rtState env rs n) hn

theorem C2_refresh_counter_bounds_witness :
    envC2ov.status_report.work_coord_offset = true ∧
    envC2ov.status_report.overrides = true ∧
    rsCons.report.wco = (rsCons.wco_counter == 0) ∧
    rsCons.report.overrides = false ∧
    rsCons.wco_counter < REPORT_WCO_REFRESH_BUSY_COUNT ∧
    (∀ k, ∃ j, k ≤ j ∧ j < k + REPORT_WCO_REFRESH_BUSY_COUNT ∧
      wcoShownAt envC2ov rsCons j = true) :=
  ⟨rfl, rfl, rfl, rfl, by decide,
   (C2_refresh_counter_bounds envC2ov rsCons rfl rfl rfl rfl (by decide) (by decide)).1⟩

-- ### C6: behaviour right after report_init_message

def envC6 : Env :=
  { baseEnv with
    status_report := { baseStatusFlags with work_coord_offset := true, overrides := true } }

def rsPre : RState := { rsClear with wco_counter := 5, override_counter := 7 }

/-- C6 counterexample: with WCO and override reporting enabled and sys.report fresh,
the very first report_realtime_status call after report_init_message (which does
reset both counters to zero) carries the Ov field but not the WCO field: the WCO
pending flag is only armed at the end of a call whose counter is zero, so the first
WCO field appears idle_interval calls later. -/
theorem C6_counterexample :
    (report_init_message "1.1f" rsPre).2.wco_counter = 0 ∧
    (report_init_message "1.1f" rsPre).2.override_counter = 0 ∧
    envC6.status_report.work_coord_offset = true ∧
    envC6.status_report.overrides = true ∧
    strContains (report_realtime_status envC6 (report_init_message "1.1f" rsPre).2).out
      "|Ov:" = true ∧
    strContains (report_realtime_status envC6 (report_init_message "1.1f" rsPre).2).out
      "|WCO:" = false := by
  refine ⟨rfl, rfl, rfl, rfl, ?_, ?_⟩ <;> decide

theorem wcoShownAt_zero_of_fresh (env : Env) (rs : RState)
    (hw : env.status_report.work_coord_offset = true)
    (hflag : rs.report.wco = false) :
    wcoShownAt env rs 0 = false := by
  unfold wcoShownAt wcoShown
  simp only [rtState]
  rw [rsAfterCounters_wco_flag env rs hw, hflag]
  simp

theorem rtNext_counter_of_zero (env : Env) (rs : RState)
    (hw : env.status_report.work_coord_offset = true)
    (hzero : rs.wco_counter = 0) :
    (rtNext env rs).wco_counter = wcoIntervalFor env - 1 := by
  show (finalizeRState env (rsAfterCounters env rs) _).wco_counter = _
  unfold finalizeRState rsAfterCounters
  rw [ovUpdate_wco_counter]
  unfold wcoCounterUpdate
  simp [hw, hzero]

/-- C6 (amended): report_init_message zeroes both refresh counters.  With both
reports enabled, sys.report fresh and the machine in a non-active state, the very
first report_realtime_status call does include the overrides field, but not the WCO
field: the first WCO field only appears on call idle_interval (0-indexed call 10). -/
theorem C6_init_counters (env : Env) (rs : RState) (version : String)
    (hw : env.status_report.work_coord_offset = true)
    (ho : env.status_report.overrides = true)
    (hreport : rs.report = ReportFlags.clear)
    (hidle : isActiveState env.state = false) :
    ((report_init_message version rs).2.wco_counter = 0 ∧
     (report_init_message version rs).2.override_counter = 0) ∧
    ovShownAt env (report_init_message version rs).2 0 = true ∧
    containsSub (rtOutAt env (report_init_message version rs).2 0) "|Ov:" ∧
    (∀ j, j < REPORT_WCO_REFRESH_IDLE_COUNT →
      wcoShownAt env (report_init_message version rs).2 j = false) ∧
    wcoShownAt env (report_init_message version rs).2 REPORT_WCO_REFRESH_IDLE_COUNT = true := by
  have hTidle : wcoIntervalFor env = 10 := by
    unfold wcoIntervalFor REPORT_WCO_REFRESH_IDLE_COUNT
    rw [hidle]
    rfl
  set rs0 : RState := (report_init_message version rs).2 with hrs0
  have hrep0 : rs0.report = ReportFlags.clear := hreport
  have hcnt0 : rs0.wco_counter = 0 := rfl
  have hov0 : rs0.report.overrides = false := by rw [hrep0]; rfl
  have hwco0 : rs0.report.wco = false := by rw [hrep0]; rfl
  have hovshow : ovShownAt env rs0 0 = true := by
    rw [ovShownAt_iff env rs0 ho hov0 0]
    show (refreshSeq (overrideIntervalFor env) rs0.override_counter 0 == 0) = true
    have : rs0.override_counter = 0 := rfl
    rw [refreshSeq, this]
    rfl
  have hnext_cnt : (rtNext env rs0).wco_counter = 9 := by
    rw [rtNext_counter_of_zero env rs0 hw hcnt0, hTidle]
  have hnext_flag : (rtNext env rs0).report.wco = ((rtNext env rs0).wco_counter == 0) :=
    rtNext_wco_flag env rs0 hw
  refine ⟨⟨rfl, rfl⟩, hovshow, ?_, ?_, ?_⟩
  · exact ovShown_out env (rtState env rs0 0) hovshow
  · intro j hj
    match j with
    | 0 => exact wcoShownAt_zero_of_fresh env rs0 hw hwco0
    | n + 1 =>
      have hshift : wcoShownAt env rs0 (n + 1) = wcoShownAt env (rtNext env rs0) n := by
        unfold wcoShownAt
        rw [rtState_succ_left]
      rw [hshift, wcoShownAt_iff env (rtNext env rs0) hw hnext_flag n, hnext_cnt, hTidle]
      have hne : refreshSeq 10 9 n ≠ 0 := by
        intro hcontra
        rw [refreshSeq_eq_zero_iff 10 9 (by omega) n] at hcontra
        have hj10 : n + 1 < REPORT_WCO_REFRESH_IDLE_COUNT := hj
        unfold REPORT_WCO_REFRESH_IDLE_COUNT at hj10
        omega
      simp [hne]
  · have hshift : wcoShownAt env rs0 REPORT_WCO_REFRESH_IDLE_COUNT =
        wcoShownAt env (rtNext env rs0) 9 := by
      unfold wcoShownAt REPORT_WCO_REFRESH_IDLE_COUNT
      rw [show (10 : Nat) = 9 + 1 from rfl, rtState_succ_left]
    rw [hshift, wcoShownAt_iff env (rtNext env rs0) hw hnext_flag 9, hnext_cnt, hTidle]
    have hz : refreshSeq 10 9 9 = 0 := by
      rw [refreshSeq_eq_zero_iff 10 9 (by omega) 9]
      exact ⟨by omega, by simp⟩
    simp [hz]

theorem C6_init_counters_witness :
    envC6.status_report.work_coord_offset = true ∧
    envC6.status_report.overrides = true ∧
    rsClear.report = ReportFlags.clear ∧
    isActiveState envC6.state = false ∧
    (((report_init_message "1.1f" rsClear).2.wco_counter = 0 ∧
      (report_init_message "1.1f" rsClear).2.override_counter = 0) ∧
     ovShownAt envC6 (report_init_message "1.1f" rsClear).2 0 = true ∧
     containsSub (rtOutAt envC6 (report_init_message "1.1f" rsClear).2 0) "|Ov:" ∧
     (∀ j, j < REPORT_WCO_REFRESH_IDLE_COUNT →
       wcoShownAt envC6 (report_init_message "1.1f" rsClear).2 j = false) ∧
     wcoShownAt envC6 (report_init_message "1.1f" rsClear).2
       REPORT_WCO_REFRESH_IDLE_COUNT = true) :=
  ⟨rfl, rfl, rfl, rfl, C6_init_counters envC6 rsClear "1.1f" rfl rfl rfl rfl⟩

-- ### No EOL character occurs before the closing delimiter

@[reducible] def noEolChar (c : Char) : Prop := c ≠ '\r' ∧ c ≠ '\n'

@[reducible] def noEolChars (l : List Char) : Prop := ∀ c ∈ l, noEolChar c

theorem noEolChars_append {l1 l2 : List Char} (h1 : noEolChars l1) (h2 : noEolChars l2) :
    noEolChars (l1 ++ l2) := by
  intro c hc
  rcases List.mem_append.mp hc with h | h
  · exact h1 c h
  · exact h2 c h

theorem noEolChars_ite (p : Prop) [Decidable p] {l1 l2 : List Char}
    (h1 : noEolChars l1) (h2 : noEolChars l2) : noEolChars (if p then l1 else l2) := by
  split
  · exact h1
  · exact h2

theorem noEol_mk {l : List Char} (h : noEolChars l) : noEol (String.mk l) := h

theorem noEolChars_axis (s : AxesSignals) : noEolChars (axis_signals_chars s) := by
  unfold axis_signals_chars
  exact noEolChars_append
    (noEolChars_append (noEolChars_ite _ (by decide) (by decide))
      (noEolChars_ite _ (by decide) (by decide)))
    (noEolChars_ite _ (by decide) (by decide))

theorem noEolChars_limit (env : Env) : noEolChars (limitChars env) := by
  unfold limitChars
  exact noEolChars_ite _ (noEolChars_axis env.limits) (by decide)

theorem noEolChars_ctrl (env : Env) : noEolChars (ctrlChars env) := by
  unfold ctrlChars
  refine noEolChars_ite _ ?_ (by decide)
  refine noEolChars_append (noEolChars_append (noEolChars_append (noEolChars_append
    (noEolChars_append (noEolChars_append (noEolChars_append (noEolChars_append
      (noEolChars_ite _ (by decide) (by decide)) (noEolChars_ite _ (by decide) (by decide)))
      (noEolChars_ite _ (by decide) (by decide))) (noEolChars_ite _ (by decide) (by decide)))
      (noEolChars_ite _ (by decide) (by decide))) (noEolChars_ite _ (by decide) (by decide)))
      (noEolChars_ite _ (by decide) (by decide))) (noEolChars_ite _ (by decide) (by decide)))
    (noEolChars_ite _ (by decide) (by decide))

theorem noEolChars_pin (env : Env) : noEolChars (pinChars env) := by
  unfold pinChars
  exact noEolChars_append
    (noEolChars_append
      (noEolChars_append (noEolChars_ite _ (by decide) (by decide))
        (noEolChars_ite _ (by decide) (by decide)))
      (noEolChars_limit env))
    (noEolChars_ctrl env)

theorem noEolChars_aChars (env : Env) (b : Bool) : noEolChars (aChars env b) := by
  unfold aChars
  refine noEolChars_append (noEolChars_append (noEolChars_append (noEolChars_append
    (noEolChars_ite _ ?_ (by decide)) (noEolChars_ite _ (by decide) (by decide)))
    (noEolChars_ite _ (by decide) (by decide))) (noEolChars_ite _ (by decide) (by decide)))
    (noEolChars_ite _ (by decide) (by decide))
  intro c hc
  rcases List.mem_singleton.mp hc with rfl
  split <;> decide

theorem noEol_runSubstate (env : Env) (b : Bool) : noEol (runSubstate env b) := by
  unfold runSubstate
  exact noEol_ite _ (by decide) (noEol_ite _ (by decide) (by decide))

theorem noEol_alarmStateFragment (env : Env) (a : Bool) : noEol (alarmStateFragment env a) := by
  unfold alarmStateFragment
  exact noEol_ite _ (noEol_append (by decide) (noEol_uitoa _)) (by decide)

theorem noEol_stateFragment (env : Env) (a p : Bool) : noEol (stateFragment env a p).1 := by
  unfold stateFragment
  split
  · show noEol "Idle"
    decide
  · exact noEol_append (by decide) (noEol_runSubstate env _)
  · exact noEol_append (by decide) (noEol_uitoa _)
  · show noEol "Jog"
    decide
  · show noEol "Home"
    decide
  · exact noEol_alarmStateFragment env a
  · exact noEol_alarmStateFragment env a
  · show noEol "Check"
    decide
  · exact noEol_append (by decide) (noEol_uitoa _)
  · show noEol "Sleep"
    decide
  · show noEol "Tool"
    decide

theorem noEol_positionFragment (env : Env) (hp : noEol env.pos_str) :
    noEol (positionFragment env) := by
  unfold positionFragment
  exact noEol_append (noEol_ite _ (by decide) (by decide)) hp

theorem noEol_bufferFragment (env : Env) : noEol (bufferFragment env) := by
  unfold bufferFragment
  exact noEol_ite _
    (noEol_append (noEol_append (noEol_append (by decide) (noEol_uitoa _)) (by decide))
      (noEol_uitoa _))
    (by decide)

theorem noEol_lineFragment (env : Env) : noEol (lineFragment env) := by
  unfold lineFragment
  split
  · split
    · exact noEol_ite _ (noEol_append (by decide) (noEol_uitoa _)) (by decide)
    · exact (by decide)
  · exact (by decide)

theorem noEol_fsFragment (env : Env) (hr : noEol env.rate_str) : noEol (fsFragment env) := by
  unfold fsFragment
  refine noEol_ite _ ?_ (by decide)
  refine noEol_ite _ ?_ (noEol_append (by decide) hr)
  exact noEol_append
    (noEol_append (noEol_append (noEol_append (by decide) hr) (by decide)) (noEol_uitoa _))
    (noEol_ite _ (noEol_append (by decide) (noEol_uitoa _)) (by decide))

theorem noEol_pinFragment (env : Env) : noEol (pinFragment env) := by
  unfold pinFragment
  exact noEol_ite _ (noEol_append (by decide) (noEol_mk (noEolChars_pin env))) (by decide)

theorem noEol_map_coord_system (id : Nat) : noEol (map_coord_system id) := by
  unfold map_coord_system
  exact noEol_ite _
    (noEol_append (noEol_append (noEol_uitoa _) (by decide)) (noEol_uitoa _))
    (noEol_uitoa _)

theorem noEol_homedFragment (env : Env) : noEol (homedFragment env) := by
  unfold homedFragment
  exact noEol_append
    (noEol_append (by decide) (noEol_ite _ (by decide) (by decide)))
    (noEol_ite _ (noEol_append (by decide) (noEol_uitoa _)) (by decide))

theorem noEol_optionalFragment (env : Env) (rs1 : RState) (hwstr : noEol env.wco_str) :
    noEol (optionalFragment env rs1) := by
  unfold optionalFragment
  refine noEol_ite _ ?_ (by decide)
  refine noEol_append (noEol_append (noEol_append (noEol_append (noEol_append (noEol_append
    (noEol_append (noEol_append (noEol_append
      (noEol_ite _ (noEol_append (by decide) hwstr) (by decide))
      (noEol_ite _ (noEol_append (by decide) (noEol_map_coord_system _)) (by decide)))
      (noEol_ite _ ?_ (by decide)))
      (noEol_ite _ (noEol_append (by decide) (noEol_mk (noEolChars_aChars env _))) (by decide)))
      (noEol_ite _ (noEol_append (by decide) (noEol_mk (noEolChars_axis _))) (by decide)))
      (noEol_ite _ (noEol_ite _ (by decide) (by decide)) (by decide)))
      (noEol_ite _ (noEol_homedFragment env) (by decide)))
      (noEol_ite _ (noEol_ite _ (by decide) (by decide)) (by decide)))
      (noEol_ite _ (noEol_append (by decide) (noEol_uitoa _)) (by decide)))
    (noEol_ite _ (noEol_append (by decide) (noEol_uitoa _)) (by decide))
  exact noEol_append (noEol_append (noEol_append (noEol_append (noEol_append (by decide)
    (noEol_uitoa _)) (by decide)) (noEol_uitoa _)) (by decide)) (noEol_uitoa _)

theorem noEol_trailingFragment (env : Env) (rs1 : RState) (hplug : noEol (pluginStr env)) :
    noEol (trailingFragment env rs1) := by
  unfold trailingFragment
  exact noEol_append hplug (noEol_ite _ (by decide) (by decide))

theorem noEol_rtBody (env : Env) (rs : RState)
    (hp : noEol env.pos_str) (hwstr : noEol env.wco_str) (hr : noEol env.rate_str)
    (hplug : noEol (pluginStr env)) : noEol (rtBody env rs) := by
  unfold rtBody
  exact noEol_append (noEol_append (noEol_append (noEol_append (noEol_append (noEol_append
    (noEol_append (noEol_append (by decide) (noEol_stateFragment env _ _))
      (noEol_positionFragment env hp))
      (noEol_bufferFragment env))
      (noEol_lineFragment env))
      (noEol_fsFragment env hr))
      (noEol_pinFragment env))
      (noEol_optionalFragment env _ hwstr))
    (noEol_trailingFragment env _ hplug)

-- ### C1: shape of the status line

def stateTokens : List String :=
  ["Idle", "Run", "Hold", "Jog", "Home", "Alarm", "Check", "Door", "Sleep", "Tool"]

theorem stateFragment_decomp (env : Env) (a p : Bool) :
    ∃ tok sub, tok ∈ stateTokens ∧ (stateFragment env a p).1 = tok ++ sub ∧
      (sub = "" ∨ ∃ u, sub = ":" ++ u) := by
  unfold stateFragment
  split
  · exact ⟨"Idle", "", by decide, (strAppend_empty _).symm, Or.inl rfl⟩
  · refine ⟨"Run", runSubstate env (probingNext env p), by decide, rfl, ?_⟩
    unfold runSubstate
    split
    · exact Or.inr ⟨"1", rfl⟩
    · split
      · exact Or.inr ⟨"2", rfl⟩
      · exact Or.inl rfl
  · refine ⟨"Hold", ":" ++ uitoa (holdSubNum env), by decide, ?_, Or.inr ⟨_, rfl⟩⟩
    show "Hold:" ++ uitoa (holdSubNum env) = "Hold" ++ (":" ++ uitoa (holdSubNum env))
    rw [← strAppend_assoc]
    have h : ("Hold" ++ ":" : String) = "Hold:" := by decide
    rw [h]
  · exact ⟨"Jog", "", by decide, (strAppend_empty _).symm, Or.inl rfl⟩
  · exact ⟨"Home", "", by decide, (strAppend_empty _).symm, Or.inl rfl⟩
  · unfold alarmStateFragment
    split
    · refine ⟨"Alarm", ":" ++ uitoa env.alarm, by decide, ?_, Or.inr ⟨_, rfl⟩⟩
      show "Alarm:" ++ uitoa env.alarm = "Alarm" ++ (":" ++ uitoa env.alarm)
      rw [← strAppend_assoc]
      have h : ("Alarm" ++ ":" : String) = "Alarm:" := by decide
      rw [h]
    · exact ⟨"Alarm", "", by decide, (strAppend_empty _).symm, Or.inl rfl⟩
  · unfold alarmStateFragment
    split
    · refine ⟨"Alarm", ":" ++ uitoa env.alarm, by decide, ?_, Or.inr ⟨_, rfl⟩⟩
      show "Alarm:" ++ uitoa env.alarm = "Alarm" ++ (":" ++ uitoa env.alarm)
      rw [← strAppend_assoc]
      have h : ("Alarm" ++ ":" : String) = "Alarm:" := by decide
      rw [h]
    · exact ⟨"Alarm", "", by decide, (strAppend_empty _).symm, Or.inl rfl⟩
  · exact ⟨"Check", "", by decide, (strAppend_empty _).symm, Or.inl rfl⟩
  · refine ⟨"Door", ":" ++ uitoa env.parking_state, by decide, ?_, Or.inr ⟨_, rfl⟩⟩
    show "Door:" ++ uitoa env.parking_state = "Door" ++ (":" ++ uitoa env.parking_state)
    rw [← strAppend_assoc]
    have h : ("Door" ++ ":" : String) = "Door:" := by decide
    rw [h]
  · exact ⟨"Sleep", "", by decide, (strAppend_empty _).symm, Or.inl rfl⟩
  · exact ⟨"Tool", "", by decide, (strAppend_empty _).symm, Or.inl rfl⟩

theorem positionFragment_head (env : Env) :
    ∃ cs, (positionFragment env).data = '|' :: cs := by
  unfold positionFragment
  split
  · exact ⟨_, rfl⟩
  · exact ⟨_, rfl⟩

/-- C1: every status line starts with one state token from the fixed enumeration
(directly followed by a sub-state or field delimiter), always carries the position
field (MPos in machine-position mode, WPos otherwise) no matter which configuration
flags or dirty flags hold, and is a single line closed by the delimiter and EOL --
provided the externally formatted value strings and the plugin appendage are free
of EOL characters. -/
theorem C1_status_line_shape (env : Env) (rs : RState)
    (hp : noEol env.pos_str) (hwstr : noEol env.wco_str) (hr : noEol env.rate_str)
    (hplug : noEol (pluginStr env)) :
    (∃ tok rest, tok ∈ stateTokens ∧
      (report_realtime_status env rs).out = "<" ++ (tok ++ rest) ∧
      (∃ c, rest.data.head? = some c ∧ (c = ':' ∨ c = '|'))) ∧
    (containsSub (report_realtime_status env rs).out "|MPos:" ∨
     containsSub (report_realtime_status env rs).out "|WPos:") ∧
    (∃ body, (report_realtime_status env rs).out = body ++ (">" ++ ASCII_EOL) ∧ noEol body) := by
  refine ⟨?_, ?_, ⟨rtBody env rs, rfl, noEol_rtBody env rs hp hwstr hr hplug⟩⟩
  · obtain ⟨tok, sub, htok, heq, hsub⟩ := stateFragment_decomp env rs.report.all rs.probing
    refine ⟨tok, sub ++ (positionFragment env ++ (bufferFragment env ++ (lineFragment env ++
      (fsFragment env ++ (pinFragment env ++ (optionalFragment env (rsAfterCounters env rs) ++
      (trailingFragment env (rsAfterCounters env rs) ++ (">" ++ ASCII_EOL)))))))),
      htok, ?_, ?_⟩
    · show rtBody env rs ++ (">" ++ ASCII_EOL) = _
      unfold rtBody
      rw [heq]
      simp only [strAppend_assoc]
    · rcases hsub with rfl | ⟨u, rfl⟩
      · obtain ⟨cs, hdata⟩ := positionFragment_head env
        refine ⟨'|', ?_, Or.inr rfl⟩
        simp only [strData_append, hdata]
        rfl
      · refine ⟨':', ?_, Or.inl rfl⟩
        simp only [strData_append]
        rfl
  · by_cases hmp : env.status_report.machine_position = true
    · left
      show containsSub (rtBody env rs ++ (">" ++ ASCII_EOL)) _
      apply containsSub_appL
      unfold rtBody positionFragment
      rw [if_pos hmp]
      apply containsSub_appL
      apply containsSub_appL
      apply containsSub_appL
      apply containsSub_appL
      apply containsSub_appL
      apply containsSub_appL
      apply containsSub_appR
      exact containsSub_left _ _
    · right
      show containsSub (rtBody env rs ++ (">" ++ ASCII_EOL)) _
      apply containsSub_appL
      unfold rtBody positionFragment
      rw [if_neg hmp]
      apply containsSub_appL
      apply containsSub_appL
      apply containsSub_appL
      apply containsSub_appL
      apply containsSub_appL
      apply containsSub_appL
      apply containsSub_appR
      exact containsSub_left _ _

theorem C1_status_line_shape_witness :
    noEol baseEnv.pos_str ∧ noEol baseEnv.wco_str ∧ noEol baseEnv.rate_str ∧
    noEol (pluginStr baseEnv) ∧
    ((∃ tok rest, tok ∈ stateTokens ∧
      (report_realtime_status baseEnv rsClear).out = "<" ++ (tok ++ rest) ∧
      (∃ c, rest.data.head? = some c ∧ (c = ':' ∨ c = '|'))) ∧
    (containsSub (report_realtime_status baseEnv rsClear).out "|MPos:" ∨
     containsSub (report_realtime_status baseEnv rsClear).out "|WPos:") ∧
    (∃ body, (report_realtime_status baseEnv rsClear).out = body ++ (">" ++ ASCII_EOL) ∧
      noEol body)) :=
  ⟨by decide, by decide, by decide, by decide,
   C1_status_line_shape baseEnv rsClear (by decide) (by decide) (by decide) (by decide)⟩

-- ### C10: the Pn field may be present with zero letters

def envC10 : Env :=
  { baseEnv with
    status_report := { baseStatusFlags with pin_state := true }
    sysf := { feed_hold_pending := false, block_delete_enabled := true,
              optional_stop_disable := false } }

/-- C10: with pin-state reporting on, block-delete mode enabled, no limit or
control pin active and the probe connected and untriggered, the status line
carries the pin-state header with zero letters after it. -/
theorem C10_empty_pin_field :
    pinGate envC10 = true ∧
    pinChars envC10 = [] ∧
    pinFragment envC10 = "|Pn:" ∧
    (report_realtime_status envC10 rsClear).out =
      "<Idle|MPos:0.000,0.000,0.000|Pn:>" ++ ASCII_EOL := by
  refine ⟨rfl, rfl, ?_, ?_⟩ <;> decide

-- ### C4: sub-state emission for Hold, Door and Alarm

def envC4 : Env := { baseEnv with state := SysState.hold, holding_state := 2 }

/-- C4 counterexample: the machine is in Hold with holding stage 2 and every
sub-state detail flag disabled (alarm_substate and run_substate are the only such
flags that exist; no Hold or Door flag exists at all), yet the emitted state
segment is Hold:1 -- the code appends the Hold sub-state unconditionally, refuting
the claim that a disabled detail flag suppresses it. -/
theorem C4_counterexample :
    envC4.status_report.alarm_substate = false ∧
    envC4.status_report.run_substate = false ∧
    envC4.holding_state = 2 ∧
    (stateFragment envC4 false false).1 = "Hold:1" ∧
    (report_realtime_status envC4 rsClear).out =
      "<Hold:1|MPos:0.000,0.000,0.000>" ++ ASCII_EOL := by
  refine ⟨rfl, rfl, rfl, ?_, ?_⟩ <;> decide

/-- C4 (amended): Hold and SafetyDoor always append their numeric sub-state
(holding stage minus one as an unsigned value, and the parking stage) regardless
of any detail flag; Alarm and EStop append the alarm-code sub-state exactly when
(a full report is requested or the alarm-substate detail flag is enabled) and the
alarm code is nonzero, and otherwise print the bare Alarm token. -/
theorem C4_substate_rules (env : Env) (reportAll probing : Bool) :
    (displayState env = SysState.hold →
      (stateFragment env reportAll probing).1 = "Hold:" ++ uitoa (holdSubNum env)) ∧
    (displayState env = SysState.safetyDoor →
      (stateFragment env reportAll probing).1 = "Door:" ++ uitoa env.parking_state) ∧
    ((displayState env = SysState.alarm ∨ displayState env = SysState.estop) →
      (stateFragment env reportAll probing).1 =
        (if (reportAll || env.status_report.alarm_substate) && env.alarm ≠ 0 then
          "Alarm:" ++ uitoa env.alarm
         else "Alarm")) := by
  refine ⟨?_, ?_, ?_⟩
  · intro h
    unfold stateFragment
    rw [h]
  · intro h
    unfold stateFragment
    rw [h]
  · intro h
    rcases h with h | h <;> (unfold stateFragment; rw [h]; rfl)

theorem C4_substate_rules_witness :
    displayState envC4 = SysState.hold ∧
    (stateFragment envC4 false false).1 = "Hold:" ++ uitoa (holdSubNum envC4) :=
  ⟨rfl, (C4_substate_rules envC4 false false).1 rfl⟩

-- ### C5: the Run sub-state

def envC5 : Env := { baseEnv with state := SysState.cycle, probing_active := true }

/-- C5 counterexample: an active probing cycle that has not yet reported a trigger,
no feed hold pending, but the run-substate detail flag disabled and the probing
latch clear: the claim requires the segment Run:2, yet the code emits a bare Run
token (the :2 sub-state additionally requires the run-substate detail flag, which
the claim omits). -/
theorem C5_counterexample :
    displayState envC5 = SysState.cycle ∧
    envC5.probing_active = true ∧
    (effProbe envC5).triggered = false ∧
    envC5.sysf.feed_hold_pending = false ∧
    envC5.status_report.run_substate = false ∧
    (stateFragment envC5 false false).1 = "Run" ∧
    (report_realtime_status envC5 rsClear).out =
      "<Run|MPos:0.000,0.000,0.000>" ++ ASCII_EOL := by
  refine ⟨rfl, rfl, rfl, rfl, rfl, ?_, ?_⟩ <;> decide

/-- C5 (amended): in Run display state the sub-state is ':1' exactly when a feed
hold is pending; otherwise ':2' exactly when the probing latch is set after its
per-call update; no sub-state otherwise.  The latch update: it turns on while a
probing cycle is active with the run-substate detail flag enabled, and a set latch
afterwards persists exactly while the probe reports triggered. -/
theorem C5_run_substate (env : Env) (reportAll probing : Bool)
    (h : displayState env = SysState.cycle) :
    (stateFragment env reportAll probing).1 =
      "Run" ++ (if env.sysf.feed_hold_pending then ":1"
        else if probingNext env probing then ":2" else "") ∧
    probingNext env probing =
      ((env.probing_active && env.status_report.run_substate) ||
        (probing && (effProbe env).triggered)) := by
  constructor
  · unfold stateFragment
    rw [h]
    rfl
  · unfold probingNext
    cases hA : env.probing_active && env.status_report.run_substate <;>
      cases hp : probing <;> simp [hA, hp]

theorem C5_run_substate_witness :
    displayState envC5 = SysState.cycle ∧
    ((stateFragment envC5 false false).1 =
      "Run" ++ (if envC5.sysf.feed_hold_pending then ":1"
        else if probingNext envC5 false then ":2" else "") ∧
     probingNext envC5 false =
      ((envC5.probing_active && envC5.status_report.run_substate) ||
        (false && (effProbe envC5).triggered))) :=
  ⟨rfl, C5_run_substate envC5 false false rfl⟩

-- ### Catalog enumerator (settings details, report.c lines 1507-1642)

/-- A setting descriptor as far as the enumerator reads it. available models
"is_available == NULL || is_available(setting)"; axis_repeats is modelled from the
spec: the axis-repetition count of the descriptor (0 = scalar, N_AXIS = per-axis),
consumed by the external settings_iterator. -/
structure SettingDetail where
  id : Nat
  group : Nat
  available : Bool
  axis_repeats : Nat
deriving DecidableEq, Repr

/-- One registry link of the chain (settings_get_details / on_get_settings). -/
structure SettingDetails where
  settings : List SettingDetail
deriving DecidableEq, Repr

def N_AXIS : Nat := 3

def Group_All : Nat := 0

def Group_Axis0 : Nat := 40

/-- Modelled from the spec: settings_normalize_group (external to the supplied
source) maps an axis-indexed group id Group_Axis0 + k, k < N_AXIS, to its base
Group_Axis0 and leaves every other id unchanged. -/
def settings_normalize_group (group : Nat) : Nat :=
  if Group_Axis0 ≤ group ∧ group < Group_Axis0 + N_AXIS then Group_Axis0 else group

structure ReportArgs where
  group : Nat
  offset : Nat
deriving DecidableEq, Repr

/-- args.group and args.offset as computed at the top of both enumeration paths. -/
def mkReportArgs (group : Nat) : ReportArgs :=
  { group := settings_normalize_group group
    offset := group - settings_normalize_group group }

/-- Modelled from the spec: the offsets at which the external settings_iterator
invokes its callback for one descriptor -- once for a scalar, once per axis for an
axis-repeated descriptor. -/
def iteratorOffsets (s : SettingDetail) : List Nat :=
  if s.axis_repeats = 0 then [0] else List.range s.axis_repeats

/-- The duplicate-suppression test shared by print_sorted (line 1515) and
print_unsorted (line 1584): skip when the descriptor sits in the requested group
but the offset is not the one the filter implies. -/
def suppressed (args : ReportArgs) (s : SettingDetail) (offset : Nat) : Bool :=
  args.group == s.group && args.offset != offset

/-- The group filter of both paths (lines 1552 and 1613). -/
def groupFilter (group : Nat) (args : ReportArgs) (s : SettingDetail) : Bool :=
  group == Group_All || s.group == args.group

def chainSettings (chain : List SettingDetails) : List SettingDetail :=
  chain.flatMap (fun d => d.settings)

/-- The pointer array collected by sort_settings_details before sorting:
every descriptor of the chain passing the group filter and its availability
predicate (lines 1550-1567). -/
def collectFiltered (chain : List SettingDetails) (group : Nat) : List SettingDetail :=
  (chainSettings chain).filter
    (fun s => groupFilter group (mkReportArgs group) s && s.available)

/-- The qsort comparator cmp_settings orders by ascending id. -/
def cmp_settings (a b : SettingDetail) : Bool := a.id ≤ b.id

/-- The rows rendered by the sorted path:  sorted collection, then per descriptor
the iterator offsets surviving duplicate suppression (print_sorted). -/
def sortedRendered (chain : List SettingDetails) (group : Nat) :
    List (SettingDetail × Nat) :=
  ((collectFiltered chain group).mergeSort cmp_settings).flatMap
    (fun s => (iteratorOffsets s).filterMap
      (fun o => if suppressed (mkReportArgs group) s o then none else some (s, o)))

/-- The rows rendered by the fallback path: chain order, group filter in the loop,
availability and duplicate suppression inside print_unsorted (lines 1582-1619). -/
def unsortedRendered (chain : List SettingDetails) (group : Nat) :
    List (SettingDetail × Nat) :=
  chain.flatMap (fun d =>
    (d.settings.filter (fun s => groupFilter group (mkReportArgs group) s)).flatMap
      (fun s => (iteratorOffsets s).filterMap
        (fun o => if !(suppressed (mkReportArgs group) s o) && s.available then some (s, o)
          else none)))

inductive StatusCode where
  | ok | settingDisabled | unhandled
deriving DecidableEq, Repr

/-- Status of sort_settings_details (lines 1521-1580): Unhandled when the scratch
allocation fails; otherwise OK when the scope is Group_All or some collected
descriptor went through settings_iterator, else SettingDisabled. -/
def sort_settings_details (allocOk : Bool) (chain : List SettingDetails) (group : Nat) :
    StatusCode :=
  if !allocOk then StatusCode.unhandled
  else if group == Group_All || !(collectFiltered chain group).isEmpty then StatusCode.ok
  else StatusCode.settingDisabled

/-- The reported bit of the fallback loop (lines 1608-1619): settings_iterator is
invoked, and returns true, for every descriptor passing the group filter alone --
availability is only tested inside print_unsorted, after reported is already set. -/
def unsorted_reported (chain : List SettingDetails) (group : Nat) : Bool :=
  group == Group_All ||
    !((chainSettings chain).filter (fun s => groupFilter group (mkReportArgs group) s)).isEmpty

/-- print_settings_details (lines 1591-1622): sorted path when allocation succeeds,
degraded unsorted walk otherwise; returns the status together with the rendered
rows (descriptor, axis offset). -/
def print_settings_details (allocOk : Bool) (chain : List SettingDetails) (group : Nat) :
    StatusCode × List (SettingDetail × Nat) :=
  match sort_settings_details allocOk chain group with
  | StatusCode.unhandled =>
    (if unsorted_reported chain group then StatusCode.ok else StatusCode.settingDisabled,
     unsortedRendered chain group)
  | s => (s, sortedRendered chain group)

def Setting_SettingsAll : Nat := 65535

/-- Modelled from the spec: setting_get_details (external) resolves a single
setting id in the merged catalog, honouring axis-offset expansion and the
availability predicate. -/
def setting_get_details (chain : List SettingDetails) (id : Nat) :
    Option (SettingDetail × Nat) :=
  (chainSettings chain).findSome? (fun s =>
    if s.available && s.id ≤ id && id < s.id + (if s.axis_repeats = 0 then 1 else s.axis_repeats)
    then some (s, id - s.id) else none)

/-- report_settings_details (lines 1624-1642): single-setting scope renders one row
when the id resolves and surfaces SettingDisabled otherwise; the all-settings scope
delegates to print_settings_details. -/
def report_settings_details (allocOk : Bool) (chain : List SettingDetails) (id : Nat)
    (group : Nat) : StatusCode × List (SettingDetail × Nat) :=
  if id ≠ Setting_SettingsAll then
    match setting_get_details chain id with
    | some row => (StatusCode.ok, [row])
    | none => (StatusCode.settingDisabled, [])
  else print_settings_details allocOk chain group

theorem mem_sortedRendered (chain : List SettingDetails) (group : Nat)
    (s : SettingDetail) (o : Nat) :
    (s, o) ∈ sortedRendered chain group ↔
      (s ∈ chainSettings chain ∧ groupFilter group (mkReportArgs group) s = true ∧
       s.available = true ∧ o ∈ iteratorOffsets s ∧
       suppressed (mkReportArgs group) s o = false) := by
  unfold sortedRendered collectFiltered
  rw [List.mem_flatMap]
  constructor
  · rintro ⟨s1, hs1, hmem⟩
    rw [List.mem_mergeSort, List.mem_filter, Bool.and_eq_true] at hs1
    obtain ⟨hchain, hg, hav⟩ := hs1
    rw [List.mem_filterMap] at hmem
    obtain ⟨o1, ho1, heq⟩ := hmem
    by_cases hsup : suppressed (mkReportArgs group) s1 o1 = true
    · rw [if_pos hsup] at heq
      cases heq
    · rw [if_neg hsup] at heq
      have heq2 : s1 = s ∧ o1 = o := by
        cases heq
        exact ⟨rfl, rfl⟩
      obtain ⟨rfl, rfl⟩ := heq2
      exact ⟨hchain, hg, hav, ho1, Bool.not_eq_true _ ▸ hsup⟩
  · rintro ⟨hchain, hg, hav, ho, hsup⟩
    refine ⟨s, ?_, ?_⟩
    · rw [List.mem_mergeSort, List.mem_filter]
      exact ⟨hchain, by rw [hg, hav]; rfl⟩
    · rw [List.mem_filterMap]
      exact ⟨o, ho, by rw [hsup]; rfl⟩

theorem mem_unsortedRendered (chain : List SettingDetails) (group : Nat)
    (s : SettingDetail) (o : Nat) :
    (s, o) ∈ unsortedRendered chain group ↔
      (s ∈ chainSettings chain ∧ groupFilter group (mkReportArgs group) s = true ∧
       s.available = true ∧ o ∈ iteratorOffsets s ∧
       suppressed (mkReportArgs group) s o = false) := by
  unfold unsortedRendered chainSettings
  rw [List.mem_flatMap]
  constructor
  · rintro ⟨d, hd, hmem⟩
    rw [List.mem_flatMap] at hmem
    obtain ⟨s1, hs1, hmem⟩ := hmem
    rw [List.mem_filter] at hs1
    obtain ⟨hds, hg⟩ := hs1
    rw [List.mem_filterMap] at hmem
    obtain ⟨o1, ho1, heq⟩ := hmem
    by_cases hcond : (!(suppressed (mkReportArgs group) s1 o1) && s1.available) = true
    · rw [if_pos hcond] at heq
      have heq2 : s1 = s ∧ o1 = o := by
        cases heq
        exact ⟨rfl, rfl⟩
      obtain ⟨rfl, rfl⟩ := heq2
      rw [Bool.and_eq_true, Bool.not_eq_eq_eq_not] at hcond
      refine ⟨?_, hg, hcond.2, ho1, hcond.1⟩
      rw [List.mem_flatMap]
      exact ⟨d, hd, hds⟩
    · rw [if_neg hcond] at heq
      cases heq
  · rintro ⟨hchain, hg, hav, ho, hsup⟩
    rw [List.mem_flatMap] at hchain
    obtain ⟨d, hd, hds⟩ := hchain
    refine ⟨d, hd, ?_⟩
    rw [List.mem_flatMap]
    refine ⟨s, by rw [List.mem_filter]; exact ⟨hds, hg⟩, ?_⟩
    rw [List.mem_filterMap]
    refine ⟨o, ho, ?_⟩
    rw [hsup, hav]
    rfl

/-- C3: for every registry chain and group filter (with availability evaluated per
descriptor), the fallback path entered when the scratch allocation fails renders
exactly the same set of (descriptor, axis offset) rows as the sorted path -- row
selection is independent of the render mode, which only affects formatting, and no
matching descriptor is dropped. -/
theorem C3_fallback_same_rows (chain : List SettingDetails) (group : Nat)
    (p : SettingDetail × Nat) :
    p ∈ sortedRendered chain group ↔ p ∈ unsortedRendered chain group := by
  obtain ⟨s, o⟩ := p
  rw [mem_sortedRendered, mem_unsortedRendered]

/-- C7: whenever a specific (non-all) group is requested, no rendered row -- on the
sorted path or on the unsorted fallback -- carries an axis offset other than the
offset implied by the filter. -/
theorem C7_axis_offset_suppression (allocOk : Bool) (chain : List SettingDetails)
    (group : Nat) (h : group ≠ Group_All) :
    ∀ s o, (s, o) ∈ (print_settings_details allocOk chain group).2 →
      o = (mkReportArgs group).offset := by
  intro s o hmem
  have hrows : (print_settings_details allocOk chain group).2 = sortedRendered chain group ∨
      (print_settings_details allocOk chain group).2 = unsortedRendered chain group := by
    unfold print_settings_details
    cases hs : sort_settings_details allocOk chain group <;> simp
  have hval : s ∈ chainSettings chain ∧ groupFilter group (mkReportArgs group) s = true ∧
      s.available = true ∧ o ∈ iteratorOffsets s ∧
      suppressed (mkReportArgs group) s o = false := by
    rcases hrows with hr | hr
    · rw [hr, mem_sortedRendered] at hmem
      exact hmem
    · rw [hr, mem_unsortedRendered] at hmem
      exact hmem
  obtain ⟨_, hg, _, _, hsup⟩ := hval
  unfold groupFilter at hg
  rw [Bool.or_eq_true] at hg
  have hgroup : s.group = (mkReportArgs group).group := by
    rcases hg with hg | hg
    · exact absurd (by simpa using hg) h
    · simpa using hg.symm
  unfold suppressed at hsup
  rw [Bool.and_eq_false_iff] at hsup
  rcases hsup with hsup | hsup
  · rw [hgroup] at hsup
    simp at hsup
  · have h2 : (mkReportArgs group).offset = o := by simpa using hsup
    exact h2.symm

def settingC7 : SettingDetail :=
  { id := 100, group := Group_Axis0, available := true, axis_repeats := 3 }

def chainC7 : List SettingDetails := [{ settings := [settingC7] }]

theorem C7_axis_offset_suppression_witness :
    (Group_Axis0 + 1 ≠ Group_All) ∧
    ((settingC7, (1 : Nat)) ∈ (print_settings_details true chainC7 (Group_Axis0 + 1)).2) ∧
    (1 : Nat) = (mkReportArgs (Group_Axis0 + 1)).offset := by
  have hrows : (print_settings_details true chainC7 (Group_Axis0 + 1)).2 =
      sortedRendered chainC7 (Group_Axis0 + 1) := rfl
  have hmem : (settingC7, (1 : Nat)) ∈
      (print_settings_details true chainC7 (Group_Axis0 + 1)).2 := by
    rw [hrows, mem_sortedRendered]
    refine ⟨by decide, by decide, rfl, by decide, by decide⟩
  exact ⟨by decide, hmem,
    C7_axis_offset_suppression true chainC7 (Group_Axis0 + 1) (by decide) settingC7 1 hmem⟩

-- ### C8: status results of the settings-details enumeration

theorem notIsEmpty_iff {α : Type} (l : List α) : (!l.isEmpty) = true ↔ l ≠ [] := by
  cases l <;> simp

theorem filter_ne_nil_iff {α : Type} (p : α → Bool) (l : List α) :
    l.filter p ≠ [] ↔ ∃ a ∈ l, p a = true := by
  constructor
  · intro h
    obtain ⟨a, ha⟩ := List.exists_mem_of_ne_nil _ h
    rw [List.mem_filter] at ha
    exact ⟨a, ha.1, ha.2⟩
  · rintro ⟨a, hl, hp⟩ hcontra
    have hmem : a ∈ l.filter p := by
      rw [List.mem_filter]
      exact ⟨hl, hp⟩
    rw [hcontra] at hmem
    cases hmem

theorem print_eq_fallback (chain : List SettingDetails) (group : Nat) :
    print_settings_details false chain group =
      (if unsorted_reported chain group then StatusCode.ok else StatusCode.settingDisabled,
       unsortedRendered chain group) := rfl

theorem print_eq_sorted (chain : List SettingDetails) (group : Nat) :
    print_settings_details true chain group =
      (sort_settings_details true chain group, sortedRendered chain group) := by
  unfold print_settings_details
  split
  · rename_i heq
    exfalso
    unfold sort_settings_details at heq
    simp only [Bool.not_true, Bool.false_eq_true, if_false] at heq
    split at heq <;> cases heq
  · rfl

theorem sortedOk_iff (chain : List SettingDetails) (group : Nat) :
    sort_settings_details true chain group = StatusCode.ok ↔
      (group = Group_All ∨ collectFiltered chain group ≠ []) := by
  have hcond : (group == Group_All || !(collectFiltered chain group).isEmpty) = true ↔
      (group = Group_All ∨ collectFiltered chain group ≠ []) := by
    rw [Bool.or_eq_true, notIsEmpty_iff, beq_iff_eq]
  unfold sort_settings_details
  simp only [Bool.not_true, Bool.false_eq_true, if_false]
  split
  · rename_i h
    exact ⟨fun _ => hcond.mp h, fun _ => rfl⟩
  · rename_i h
    constructor
    · intro hcontra
      cases hcontra
    · intro hrhs
      exact absurd (hcond.mpr hrhs) h

theorem fallbackOk_iff (chain : List SettingDetails) (group : Nat) :
    (print_settings_details false chain group).1 = StatusCode.ok ↔
      (group = Group_All ∨ ∃ s ∈ chainSettings chain,
        groupFilter group (mkReportArgs group) s = true) := by
  have hcond : unsorted_reported chain group = true ↔
      (group = Group_All ∨ ∃ s ∈ chainSettings chain,
        groupFilter group (mkReportArgs group) s = true) := by
    unfold unsorted_reported
    rw [Bool.or_eq_true, notIsEmpty_iff, beq_iff_eq, filter_ne_nil_iff]
  rw [print_eq_fallback]
  show (if unsorted_reported chain group then StatusCode.ok else StatusCode.settingDisabled) =
      StatusCode.ok ↔ _
  split
  · rename_i h
    exact ⟨fun _ => hcond.mp h, fun _ => rfl⟩
  · rename_i h
    constructor
    · intro hcontra
      cases hcontra
    · intro hrhs
      exact absurd (hcond.mpr hrhs) h

theorem collect_ne_nil_iff (chain : List SettingDetails) (group : Nat) :
    collectFiltered chain group ≠ [] ↔
      ∃ s ∈ chainSettings chain,
        (groupFilter group (mkReportArgs group) s && s.available) = true := by
  unfold collectFiltered
  rw [filter_ne_nil_iff]

theorem sortedRows_ne_nil_of_collect (chain : List SettingDetails) (group : Nat)
    (hgr : group ≠ Group_All)
    (hwf : ∀ s ∈ chainSettings chain, s.group = (mkReportArgs group).group →
      (mkReportArgs group).offset ∈ iteratorOffsets s)
    (hok : collectFiltered chain group ≠ []) : sortedRendered chain group ≠ [] := by
  obtain ⟨s, hchain, hfa⟩ := (collect_ne_nil_iff chain group).mp hok
  rw [Bool.and_eq_true] at hfa
  obtain ⟨hg, hav⟩ := hfa
  have hgroup : s.group = (mkReportArgs group).group := by
    unfold groupFilter at hg
    rw [Bool.or_eq_true] at hg
    rcases hg with hg | hg
    · exact absurd (by simpa using hg) hgr
    · simpa using hg.symm
  intro hcontra
  have hrow : (s, (mkReportArgs group).offset) ∈ sortedRendered chain group := by
    rw [mem_sortedRendered]
    refine ⟨hchain, ?_, hav, hwf s hchain hgroup, ?_⟩
    · unfold groupFilter
      rw [Bool.or_eq_true]
      right
      simpa using hgroup
    · unfold suppressed
      simp
  rw [hcontra] at hrow
  cases hrow

theorem sorted_collect_of_rows (chain : List SettingDetails) (group : Nat)
    (hrows : sortedRendered chain group ≠ []) : collectFiltered chain group ≠ [] := by
  obtain ⟨⟨s, o⟩, hmem⟩ := List.exists_mem_of_ne_nil _ hrows
  rw [mem_sortedRendered] at hmem
  obtain ⟨hchain, hg, hav, _, _⟩ := hmem
  refine (collect_ne_nil_iff chain group).mpr ⟨s, hchain, ?_⟩
  rw [hg, hav]
  rfl

/-- C8 (amended): the returned status is never the allocation-failure sentinel
(Status_Unhandled) -- the shortfall is absorbed by the fallback; the all-settings
scope and any enumeration that rendered a row report OK; on the sorted path a
specific scope reports OK exactly when it rendered at least one row (given every
descriptor of the scoped group carries the filter-implied axis offset); a single
resolvable setting id renders one row with OK and an unresolvable one reports
Status_SettingDisabled with zero rows; but on the fallback path the status is OK
exactly when some descriptor matches the group filter, availability never being
consulted, so a scope whose descriptors are all unavailable reports OK with zero
rows there. -/
theorem C8_enumeration_status (allocOk : Bool) (chain : List SettingDetails) (group : Nat) :
    (print_settings_details allocOk chain group).1 ≠ StatusCode.unhandled ∧
    (group = Group_All → (print_settings_details allocOk chain group).1 = StatusCode.ok) ∧
    ((print_settings_details allocOk chain group).2 ≠ [] →
      (print_settings_details allocOk chain group).1 = StatusCode.ok) ∧
    (allocOk = true → group ≠ Group_All →
      (∀ s ∈ chainSettings chain, s.group = (mkReportArgs group).group →
        (mkReportArgs group).offset ∈ iteratorOffsets s) →
      ((print_settings_details allocOk chain group).1 = StatusCode.ok ↔
        (print_settings_details allocOk chain group).2 ≠ [])) ∧
    (allocOk = false →
      ((print_settings_details allocOk chain group).1 = StatusCode.ok ↔
        (group = Group_All ∨ ∃ s ∈ chainSettings chain,
          groupFilter group (mkReportArgs group) s = true))) ∧
    (∀ id, id ≠ Setting_SettingsAll →
      ((report_settings_details allocOk chain id group).1 = StatusCode.ok ↔
        (report_settings_details allocOk chain id group).2 ≠ [])) := by
  refine ⟨?_, ?_, ?_, ?_, ?_, ?_⟩
  · cases allocOk
    · rw [print_eq_fallback]
      show (if unsorted_reported chain group then StatusCode.ok
        else StatusCode.settingDisabled) ≠ _
      split <;> intro hcontra <;> cases hcontra
    · rw [print_eq_sorted]
      show sort_settings_details true chain group ≠ StatusCode.unhandled
      unfold sort_settings_details
      simp only [Bool.not_true, Bool.false_eq_true, if_false]
      split <;> intro hcontra <;> cases hcontra
  · intro hAll
    cases allocOk
    · rw [fallbackOk_iff]
      exact Or.inl hAll
    · rw [print_eq_sorted]
      show sort_settings_details true chain group = StatusCode.ok
      rw [sortedOk_iff]
      exact Or.inl hAll
  · intro hrows
    cases allocOk
    · rw [fallbackOk_iff]
      rw [print_eq_fallback] at hrows
      obtain ⟨⟨s, o⟩, hmem⟩ := List.exists_mem_of_ne_nil _ hrows
      rw [mem_unsortedRendered] at hmem
      obtain ⟨hchain, hg, _, _, _⟩ := hmem
      exact Or.inr ⟨s, hchain, hg⟩
    · rw [print_eq_sorted]
      rw [print_eq_sorted] at hrows
      show sort_settings_details true chain group = StatusCode.ok
      rw [sortedOk_iff]
      exact Or.inr (sorted_collect_of_rows chain group hrows)
  · intro hA hgr hwf
    subst hA
    rw [print_eq_sorted]
    show sort_settings_details true chain group = StatusCode.ok ↔
      sortedRendered chain group ≠ []
    rw [sortedOk_iff]
    constructor
    · intro hok
      rcases hok with hok | hok
      · exact absurd hok hgr
      · exact sortedRows_ne_nil_of_collect chain group hgr hwf hok
    · intro hrows
      exact Or.inr (sorted_collect_of_rows chain group hrows)
  · intro hA
    subst hA
    exact fallbackOk_iff chain group
  · intro id hid
    unfold report_settings_details
    rw [if_pos hid]
    cases hres : setting_get_details chain id
    · constructor
      · intro hcontra
        cases hcontra
      · intro hcontra
        simp at hcontra
    · constructor
      · intro _
        simp
      · intro _
        rfl

def chainC8 : List SettingDetails :=
  [{ settings := [{ id := 200, group := 5, available := false, axis_repeats := 0 }] }]

/-- C8 counterexample: a scope (group 5) whose only descriptor exists but is
unavailable renders zero rows on the allocation-failure fallback path, yet the
returned status is OK, not the claimed Status_SettingDisabled -- the fallback loop
marks the scope as reported before availability is consulted.  (The sorted path
returns SettingDisabled for the same scope.) -/
theorem C8_counterexample :
    (5 : Nat) ≠ Group_All ∧
    (print_settings_details false chainC8 5).2 = [] ∧
    (print_settings_details false chainC8 5).1 = StatusCode.ok ∧
    (print_settings_details true chainC8 5).1 = StatusCode.settingDisabled := by
  refine ⟨by decide, ?_, ?_, ?_⟩ <;> rfl

theorem C8_enumeration_status_witness :
    ((Group_Axis0 + 1 : Nat) ≠ Group_All) ∧
    (∀ s ∈ chainSettings chainC7, s.group = (mkReportArgs (Group_Axis0 + 1)).group →
      (mkReportArgs (Group_Axis0 + 1)).offset ∈ iteratorOffsets s) ∧
    ((print_settings_details true chainC7 (Group_Axis0 + 1)).1 = StatusCode.ok ↔
      (print_settings_details true chainC7 (Group_Axis0 + 1)).2 ≠ []) :=
  ⟨by decide, by decide,
   (C8_enumeration_status true chainC7 (Group_Axis0 + 1)).2.2.2.1 rfl (by decide) (by decide)⟩

-- ### Odometer plugin (odometer.c)

inductive Handler where
  | ext (n : Nat)
  | odoCommandExecute
  | odoStateChanged
  | odoReportOptions
  | odoSettingsChanged
  | odoSpindleSetState
  | odoStepperPulseStart
deriving DecidableEq, Repr

/-- The six entry points the odometer plugin intercepts (grbl.on_unknown_sys_command,
grbl.on_state_change, grbl.on_report_options, hal.settings_changed,
hal.spindle.set_state, hal.stepper.pulse_start). -/
structure HookSlots where
  on_unknown_sys_command : Option Handler
  on_state_change : Option Handler
  on_report_options : Option Handler
  settings_changed : Option Handler
  spindle_set_state : Option Handler
  stepper_pulse_start : Option Handler
deriving DecidableEq, Repr

/-- The static saved-handler variables of odometer.c (lines 54-59). -/
structure OdoSaved where
  on_unknown_sys_command : Option Handler
  on_state_change : Option Handler
  on_report_options : Option Handler
  settings_changed : Option Handler
  spindle_set_state : Option Handler
  stepper_pulse_start : Option Handler
deriving DecidableEq, Repr

inductive NvsType where
  | nvsNone | emulated | eeprom | fram | flash
deriving DecidableEq, Repr

/-- odometer_init (lines 233-267).  With EEPROM or FRAM storage and enough free
space, every previously installed handler is saved into its static variable and
the odometer handler is substituted; otherwise only a warning is enqueued and no
hook changes.  (The initial NVS read failure path resets odometer data only; it
does not affect the hooks.) -/
def odometer_init (nvsType : NvsType) (enoughSpace : Bool) (slots : HookSlots)
    (saved0 : OdoSaved) : HookSlots × OdoSaved :=
  if ¬(nvsType = NvsType.eeprom ∨ nvsType = NvsType.fram) then (slots, saved0)
  else if !enoughSpace then (slots, saved0)
  else
    ({ on_unknown_sys_command := some Handler.odoCommandExecute
       on_state_change := some Handler.odoStateChanged
       on_report_options := some Handler.odoReportOptions
       settings_changed := some Handler.odoSettingsChanged
       spindle_set_state := some Handler.odoSpindleSetState
       stepper_pulse_start := some Handler.odoStepperPulseStart },
     { on_unknown_sys_command := slots.on_unknown_sys_command
       on_state_change := slots.on_state_change
       on_report_options := slots.on_report_options
       settings_changed := slots.settings_changed
       spindle_set_state := slots.spindle_set_state
       stepper_pulse_start := slots.stepper_pulse_start })

def UINT32_MOD : Nat := 4294967296

def UINT64_MOD : Nat := 18446744073709551616

/-- Unsigned 32-bit subtraction a - b as in C, for a, b below 2^32. -/
def sub32 (a b : Nat) : Nat := (a + UINT32_MOD - b % UINT32_MOD) % UINT32_MOD

/-- Odometer accumulation state: the statics of odometer.c.  The per-axis
distances accumulate over ℚ here; the C float rounding is not modelled and no
claim depends on the values. -/
structure OdoState where
  ms : Nat
  spindleMs : Nat
  odometer_changed : Bool
  steps : List Nat
  motors : Nat
  spindle : Nat
  distance : List ℚ
deriving DecidableEq, Repr

/-- stepperPulseStart (lines 61-90): counts a step per axis whose out-bit is set,
marks the odometers changed, then unconditionally forwards to the saved
hal.stepper.pulse_start (second component: the saved handler is invoked). -/
def stepperPulseStart (_saved : Option Handler) (st : OdoState) (outbits : AxesSignals) :
    OdoState × Bool :=
  ({ st with
      odometer_changed := true
      steps := [
        (st.steps.getD 0 0 + if outbits.x then 1 else 0) % UINT32_MOD,
        (st.steps.getD 1 0 + if outbits.y then 1 else 0) % UINT32_MOD,
        (st.steps.getD 2 0 + if outbits.z then 1 else 0) % UINT32_MOD] },
   true)

/-- The state mask STATE_CYCLE|STATE_JOG|STATE_HOMING of line 96. -/
def isCycleJogHoming : SysState → Bool
  | .cycle | .jog | .homing => true
  | _ => false

/-- The accumulation arm of onStateChanged (lines 99-114): clear the changed flag,
add the elapsed ticks to the motor timer, fold each nonzero step counter into the
distance odometer and clear it. -/
def odoAccumulate (stepsPerMM : List ℚ) (ticks : Nat) (st : OdoState) : OdoState :=
  { st with
    odometer_changed := false
    motors := (st.motors + sub32 ticks st.ms) % UINT64_MOD
    distance := (List.range 3).map (fun i =>
      if st.steps.getD i 0 ≠ 0 then
        st.distance.getD i 0 + (st.steps.getD i 0 : ℚ) / stepsPerMM.getD i 1
      else st.distance.getD i 0)
    steps := [0, 0, 0] }

/-- onStateChanged (lines 92-118): latch the tick counter on entering
Cycle/Jog/Homing, otherwise accumulate when the odometers changed (middle result:
an NVS write happened); finally forward to the saved handler when one was
installed (last result). -/
def onStateChanged (saved : Option Handler) (stepsPerMM : List ℚ) (ticks : Nat)
    (st : OdoState) (state : SysState) : OdoState × Bool × Bool :=
  if isCycleJogHoming state then
    ({ st with ms := ticks }, false, saved.isSome)
  else if st.odometer_changed then
    (odoAccumulate stepsPerMM ticks st, true, saved.isSome)
  else (st, false, saved.isSome)

/-- onSpindleSetState (lines 126-140): the saved hal.spindle.set_state is invoked
first, unconditionally (last result); then the spindle-on edge latches the tick
counter and the off edge accumulates spindle time and enqueues a foreground NVS
write (middle result). -/
def onSpindleSetState (ticks : Nat) (st : OdoState) (spindleOn : Bool) :
    OdoState × Bool × Bool :=
  if spindleOn then ({ st with spindleMs := ticks }, false, true)
  else if st.spindleMs ≠ 0 then
    ({ st with
        spindle := (st.spindle + sub32 ticks st.spindleMs) % UINT64_MOD
        spindleMs := 0 },
     true, true)
  else (st, false, true)

/-- onSettingsChanged (lines 143-156): the saved hal.settings_changed runs first,
unconditionally (last result); then the spindle and stepper entry points are
reclaimed if a settings change replaced them, saving the new occupant. -/
def onSettingsChanged (slots : HookSlots) (saved : OdoSaved) :
    HookSlots × OdoSaved × Bool :=
  let p1 :=
    if slots.spindle_set_state ≠ some Handler.odoSpindleSetState then
      ({ slots with spindle_set_state := some Handler.odoSpindleSetState },
       { saved with spindle_set_state := slots.spindle_set_state })
    else (slots, saved)
  let p2 :=
    if p1.1.stepper_pulse_start ≠ some Handler.odoStepperPulseStart then
      ({ p1.1 with stepper_pulse_start := some Handler.odoStepperPulseStart },
       { p1.2 with stepper_pulse_start := p1.1.stepper_pulse_start })
    else p1
  (p2.1, p2.2, true)

/-- onReportOptions (lines 217-221): the saved grbl.on_report_options is invoked
first, unconditionally (second result), then the plugin banner is written. -/
def onReportOptions : String × Bool :=
  ("[PLUGIN:ODOMETERS v0.01]" ++ ASCII_EOL, true)

inductive OdoStatus where
  | ok | unhandled
deriving DecidableEq, Repr

/-- The status commandExecute computes itself (lines 189-212): Status_OK for the
three odometer commands (all starting with line[1] == 'O'), Status_Unhandled
otherwise. -/
def odoOwnStatus (line : String) : OdoStatus :=
  if line.data.getD 1 (Char.ofNat 0) = 'O' then
    if line.data.drop 1 = "ODOMETERS".data then OdoStatus.ok
    else if line.data.drop 1 = "ODOMETERS=PREV".data then OdoStatus.ok
    else if line.data.drop 1 = "ODOMETERS=RST".data then OdoStatus.ok
    else OdoStatus.unhandled
  else OdoStatus.unhandled

/-- commandExecute (line 214): forwards to the saved on_unknown_sys_command only
when the command was not handled here and a handler was installed (second result:
the saved handler is invoked). -/
def commandExecute (saved : Option Handler) (savedResult : OdoStatus) (line : String) :
    OdoStatus × Bool :=
  let retval := odoOwnStatus line
  if retval = OdoStatus.unhandled ∧ saved.isSome then (savedResult, true)
  else (retval, false)

/-- C9 counterexample: the unknown-system-command hook has a previously installed
handler saved, yet on the input $ODOMETERS -- handled by the odometer itself --
the substituted handler does not re-invoke it, refuting the claim that every
substituted handler re-invokes the saved handler whenever one was installed. -/
theorem C9_counterexample :
    (some (Handler.ext 0)).isSome = true ∧
    odoOwnStatus "$ODOMETERS" = OdoStatus.ok ∧
    (commandExecute (some (Handler.ext 0)) OdoStatus.unhandled "$ODOMETERS").2 = false := by
  refine ⟨rfl, ?_, ?_⟩ <;> decide

/-- C9 (amended): when the odometer initializes (EEPROM/FRAM storage with enough
space), each of the six hooks saves the previously installed handler before
substituting its own; the state-change wrapper re-invokes the saved handler
exactly when one was installed, the settings-changed, spindle-set-state, stepper
pulse-start and report-options wrappers re-invoke it unconditionally, and the
unknown-system-command wrapper re-invokes it exactly when one was installed and
the command was not an odometer command. -/
theorem C9_hook_chain (nvsType : NvsType) (enoughSpace : Bool) (slots : HookSlots)
    (saved0 : OdoSaved)
    (hnvs : nvsType = NvsType.eeprom ∨ nvsType = NvsType.fram)
    (hspace : enoughSpace = true) :
    ((odometer_init nvsType enoughSpace slots saved0).2.on_unknown_sys_command =
       slots.on_unknown_sys_command ∧
     (odometer_init nvsType enoughSpace slots saved0).2.on_state_change =
       slots.on_state_change ∧
     (odometer_init nvsType enoughSpace slots saved0).2.on_report_options =
       slots.on_report_options ∧
     (odometer_init nvsType enoughSpace slots saved0).2.settings_changed =
       slots.settings_changed ∧
     (odometer_init nvsType enoughSpace slots saved0).2.spindle_set_state =
       slots.spindle_set_state ∧
     (odometer_init nvsType enoughSpace slots saved0).2.stepper_pulse_start =
       slots.stepper_pulse_start) ∧
    ((odometer_init nvsType enoughSpace slots saved0).1.on_unknown_sys_command =
       some Handler.odoCommandExecute ∧
     (odometer_init nvsType enoughSpace slots saved0).1.on_state_change =
       some Handler.odoStateChanged ∧
     (odometer_init nvsType enoughSpace slots saved0).1.on_report_options =
       some Handler.odoReportOptions ∧
     (odometer_init nvsType enoughSpace slots saved0).1.settings_changed =
       some Handler.odoSettingsChanged ∧
     (odometer_init nvsType enoughSpace slots saved0).1.spindle_set_state =
       some Handler.odoSpindleSetState ∧
     (odometer_init nvsType enoughSpace slots saved0).1.stepper_pulse_start =
       some Handler.odoStepperPulseStart) ∧
    (∀ sv stepsPerMM ticks st state,
      (onStateChanged sv stepsPerMM ticks st state).2.2 = sv.isSome) ∧
    (∀ ticks st spindleOn, (onSpindleSetState ticks st spindleOn).2.2 = true) ∧
    (∀ sv st outbits, (stepperPulseStart sv st outbits).2 = true) ∧
    (∀ slots1 saved1, (onSettingsChanged slots1 saved1).2.2 = true) ∧
    onReportOptions.2 = true ∧
    (∀ sv savedResult line,
      (commandExecute sv savedResult line).2 =
        (decide (odoOwnStatus line = OdoStatus.unhandled) && sv.isSome)) := by
  have hinit : odometer_init nvsType enoughSpace slots saved0 =
      ({ on_unknown_sys_command := some Handler.odoCommandExecute
         on_state_change := some Handler.odoStateChanged
         on_report_options := some Handler.odoReportOptions
         settings_changed := some Handler.odoSettingsChanged
         spindle_set_state := some Handler.odoSpindleSetState
         stepper_pulse_start := some Handler.odoStepperPulseStart },
       { on_unknown_sys_command := slots.on_unknown_sys_command
         on_state_change := slots.on_state_change
         on_report_options := slots.on_report_options
         settings_changed := slots.settings_changed
         spindle_set_state := slots.spindle_set_state
         stepper_pulse_start := slots.stepper_pulse_start }) := by
    unfold odometer_init
    rw [if_neg (not_not_intro hnvs), hspace]
    rfl
  refine ⟨?_, ?_, ?_, ?_, ?_, ?_, rfl, ?_⟩
  · rw [hinit]
    exact ⟨rfl, rfl, rfl, rfl, rfl, rfl⟩
  · rw [hinit]
    exact ⟨rfl, rfl, rfl, rfl, rfl, rfl⟩
  · intro sv stepsPerMM ticks st state
    unfold onStateChanged
    split
    · rfl
    · split <;> rfl
  · intro ticks st spindleOn
    unfold onSpindleSetState
    split
    · rfl
    · split <;> rfl
  · intro sv st outbits
    rfl
  · intro slots1 saved1
    rfl
  · intro sv savedResult line
    unfold commandExecute
    show (if odoOwnStatus line = OdoStatus.unhandled ∧ sv.isSome = true then (savedResult, true)
      else (odoOwnStatus line, false)).2 = _
    by_cases h1 : odoOwnStatus line = OdoStatus.unhandled
    · by_cases h2 : sv.isSome = true
      · rw [if_pos ⟨h1, h2⟩]
        simp [h1, h2]
      · rw [if_neg (fun hc => h2 hc.2)]
        cases sv
        · simp [h1]
        · simp at h2
    · rw [if_neg (fun hc => h1 hc.1)]
      simp [h1]

def slotsExt : HookSlots :=
  { on_unknown_sys_command := some (Handler.ext 1)
    on_state_change := some (Handler.ext 2)
    on_report_options := some (Handler.ext 3)
    settings_changed := some (Handler.ext 4)
    spindle_set_state := some (Handler.ext 5)
    stepper_pulse_start := some (Handler.ext 6) }

def savedNone : OdoSaved :=
  { on_unknown_sys_command := none, on_state_change := none, on_report_options := none
    settings_changed := none, spindle_set_state := none, stepper_pulse_start := none }

theorem C9_hook_chain_witness :
    (NvsType.eeprom = NvsType.eeprom ∨ NvsType.eeprom = NvsType.fram) ∧
    ((odometer_init NvsType.eeprom true slotsExt savedNone).2.on_state_change =
       slotsExt.on_state_change) ∧
    (odometer_init NvsType.eeprom true slotsExt savedNone).1.on_state_change =
       some Handler.odoStateChanged :=
  ⟨Or.inl rfl,
   (C9_hook_chain NvsType.eeprom true slotsExt savedNone (Or.inl rfl) rfl).1.2.1,
   (C9_hook_chain NvsType.eeprom true slotsExt savedNone (Or.inl rfl) rfl).2.1.2.1⟩
